import Mathlib

/-!
# Verification of the license-server core (`license_web_admin.py`)

A shallow embedding of the license-validation protocol of the repository:
request signatures (`verify_signature`), the replay window (`check_timestamp`),
and the four client operations `check_license`, `activate_license`,
`deactivate_license`, `heartbeat`, together with the administrative endpoints
`api_block` / `api_unblock` / `api_unbind` / `api_delete` / `api_generate`.

Modelling conventions:
* JSON values are modelled by `JVal`; request bodies and response bodies are
  association lists `List (String × JVal)` (Python dicts with unique keys).
  Nested objects (`device_info`) are modelled one level deep with string
  fields, which is how the protocol uses them.
* Timestamps (`datetime` values and the integer `timestamp` request field)
  are modelled as integers; `datetime.now()` becomes an explicit `now`
  parameter threaded through each operation.
* The licenses table is a `List License`; a SQL `UPDATE ... WHERE` is a `map`
  guarded by the `WHERE` predicate and `SELECT ... WHERE key` / `fetchone`
  is `List.find?`.  The store is assumed reachable (the `conn is None`
  branches return a fixed server error and are not modelled).
* `hashlib.sha256(...).hexdigest()` is implemented bit-for-bit (`sha256hex`)
  over the UTF-8 bytes of the input string.
-/

/-- JSON values as used by the protocol: strings, integers, booleans, `null`,
and (for `device_info`) flat objects with string fields. -/
inductive JVal where
  | jstr (s : String)
  | jint (n : Int)
  | jbool (b : Bool)
  | jnull
  | jobj (fields : List (String × String))
deriving DecidableEq, Repr

open JVal

/-- `data.get(k)` on a Python dict modelled as an association list. -/
def jget (data : List (String × JVal)) (k : String) : Option JVal :=
  (data.find? (fun kv => decide (kv.1 = k))).map (·.2)

/-- `data.pop(k, ...)`'s effect on the dict: remove the key. -/
def jremove (data : List (String × JVal)) (k : String) : List (String × JVal) :=
  data.filter (fun kv => !(decide (kv.1 = k)))

/-- Python truthiness of a JSON value (`if not key: ...`). -/
def jtruthy : JVal → Bool
  | jstr s => !(decide (s = ""))
  | jint n => !(decide (n = 0))
  | jbool b => b
  | jnull => false
  | jobj fields => !(decide (fields = []))

/-- Truthiness of `data.get(k)` (missing key → `None` → falsy). -/
def jtruthyO : Option JVal → Bool
  | none => false
  | some v => jtruthy v

/-- Overwrite the value stored at key `k` (Python `d[k] = v` on an existing key). -/
def setField (data : List (String × JVal)) (k : String) (v : JVal) :
    List (String × JVal) :=
  data.map (fun kv => if kv.1 = k then (k, v) else kv)

/-! ## `json.dumps` with `ensure_ascii` (the default), as used for the
signed canonical payload (`sort_keys=True`) and for storing `device_info`. -/

/-- Lower-case hex digit. -/
def hexDig (n : Nat) : Char :=
  if n < 10 then Char.ofNat (48 + n) else Char.ofNat (87 + n)

/-- A `\uXXXX` escape for a code unit `n < 0x10000`. -/
def uEsc (n : Nat) : List Char :=
  ['\\', 'u', hexDig (n / 4096 % 16), hexDig (n / 256 % 16),
   hexDig (n / 16 % 16), hexDig (n % 16)]

/-- Python `json`'s ASCII string escaping of one character: `"` and `\` get
backslash escapes, the five named control characters get short escapes, other
control characters and all non-ASCII characters become `\uXXXX` (astral
characters as a UTF-16 surrogate pair), printable ASCII is left alone. -/
def escChar (c : Char) : List Char :=
  let n := c.toNat
  if n = 34 then ['\\', '"']
  else if n = 92 then ['\\', '\\']
  else if n = 8 then ['\\', 'b']
  else if n = 9 then ['\\', 't']
  else if n = 10 then ['\\', 'n']
  else if n = 12 then ['\\', 'f']
  else if n = 13 then ['\\', 'r']
  else if n < 32 then uEsc n
  else if n < 127 then [c]
  else if n < 65536 then uEsc n
  else uEsc (55296 + (n - 65536) / 1024) ++ uEsc (56320 + (n - 65536) % 1024)

/-- Escape a character list. -/
def escapeList : List Char → List Char
  | [] => []
  | c :: cs => escChar c ++ escapeList cs

/-- A JSON string literal: `"..."` with the content escaped. -/
def dumpStr (s : String) : String :=
  "\"" ++ String.mk (escapeList s.data) ++ "\""

/-- `", ".join(...)`: the item separator of `json.dumps`. -/
def joinComma : List String → String
  | [] => ""
  | [s] => s
  | s :: rest => s ++ ", " ++ joinComma rest

/-- Strict lexicographic order on character lists by code point, which is how
Python's `sorted` orders `str` keys. -/
def strLtCh : List Char → List Char → Bool
  | [], [] => false
  | [], _ :: _ => true
  | _ :: _, [] => false
  | a :: as, b :: bs =>
    if a.toNat < b.toNat then true
    else if a.toNat = b.toNat then strLtCh as bs
    else false

/-- `a ≤ b` on strings, by code point. -/
def strLe (a b : String) : Bool := !(strLtCh b.data a.data)

/-- Insert one keyed entry into a key-sorted list (stable). -/
def insertKey {α : Type} (x : String × α) : List (String × α) → List (String × α)
  | [] => [x]
  | y :: ys => if strLe x.1 y.1 then x :: y :: ys else y :: insertKey x ys

/-- Sort an association list by key (`sort_keys=True`). -/
def sortKeys {α : Type} : List (String × α) → List (String × α)
  | [] => []
  | x :: xs => insertKey x (sortKeys xs)

/-- Serialize one JSON value, with nested object keys sorted
(`json.dumps(..., sort_keys=True)` sorts at every level). -/
def dumpVal : JVal → String
  | jstr s => dumpStr s
  | jint n => toString n
  | jbool b => if b then "true" else "false"
  | jnull => "null"
  | jobj fields =>
    "\x7b" ++ joinComma ((sortKeys fields).map
      (fun kv => dumpStr kv.1 ++ ": " ++ dumpStr kv.2)) ++ "\x7d"

/-- Serialize one JSON value without sorting object keys (plain `json.dumps`,
used when storing `device_info`). -/
def dumpValPlain : JVal → String
  | jstr s => dumpStr s
  | jint n => toString n
  | jbool b => if b then "true" else "false"
  | jnull => "null"
  | jobj fields =>
    "\x7b" ++ joinComma (fields.map
      (fun kv => dumpStr kv.1 ++ ": " ++ dumpStr kv.2)) ++ "\x7d"

/-- `json.dumps(data, sort_keys=True)` of a top-level dict. -/
def dumpObjSorted (data : List (String × JVal)) : String :=
  "\x7b" ++ joinComma ((sortKeys data).map
    (fun kv => dumpStr kv.1 ++ ": " ++ dumpVal kv.2)) ++ "\x7d"

/-! ## SHA-256 (`hashlib.sha256(...).hexdigest()`) -/

/-- UTF-8 encoding of one character (`str.encode()`). -/
def utf8Char (c : Char) : List Nat :=
  let n := c.toNat
  if n < 128 then [n]
  else if n < 2048 then [192 + n / 64, 128 + n % 64]
  else if n < 65536 then [224 + n / 4096, 128 + n / 64 % 64, 128 + n % 64]
  else [240 + n / 262144, 128 + n / 4096 % 64, 128 + n / 64 % 64, 128 + n % 64]

/-- UTF-8 bytes of a character list. -/
def utf8List : List Char → List Nat
  | [] => []
  | c :: cs => utf8Char c ++ utf8List cs

/-- UTF-8 bytes of a string. -/
def utf8Bytes (s : String) : List Nat := utf8List s.data

/-- 2^32, the word modulus. -/
def m32 : Nat := 4294967296

/-- Right-rotation of a 32-bit word (input assumed `< 2^32`). -/
def rotr (n x : Nat) : Nat := x / 2 ^ n + x % 2 ^ n * 2 ^ (32 - n)

/-- Logical right shift. -/
def shr (n x : Nat) : Nat := x / 2 ^ n

/-- The eight 32-bit words of a SHA-256 state / digest. -/
structure Hash8 where
  w0 : Nat
  w1 : Nat
  w2 : Nat
  w3 : Nat
  w4 : Nat
  w5 : Nat
  w6 : Nat
  w7 : Nat
deriving DecidableEq, Repr

/-- SHA-256 initial state. -/
def shaInit : Hash8 :=
  ⟨1779033703, 3144134277, 1013904242, 2773480762,
   1359893119, 2600822924, 528734635, 1541459225⟩

/-- SHA-256 round constants. -/
def shaK : List Nat :=
  [1116352408, 1899447441, 3049323471, 3921009573, 961987163,
   1508970993, 2453635748, 2870763221, 3624381080, 310598401,
   607225278, 1426881987, 1925078388, 2162078206, 2614888103,
   3248222580, 3835390401, 4022224774, 264347078, 604807628,
   770255983, 1249150122, 1555081692, 1996064986, 2554220882,
   2821834349, 2952996808, 3210313671, 3336571891, 3584528711,
   113926993, 338241895, 666307205, 773529912, 1294757372,
   1396182291, 1695183700, 1986661051, 2177026350, 2456956037,
   2730485921, 2820302411, 3259730800, 3345764771, 3516065817,
   3600352804, 4094571909, 275423344, 430227734, 506948616,
   659060556, 883997877, 958139571, 1322822218, 1537002063,
   1747873779, 1955562222, 2024104815, 2227730452, 2361852424,
   2428436474, 2756734187, 3204031479, 3329325298]

/-- Big-endian bytes → 32-bit words. -/
def toWords : List Nat → List Nat
  | b0 :: b1 :: b2 :: b3 :: rest =>
    (b0 * 16777216 + b1 * 65536 + b2 * 256 + b3) :: toWords rest
  | _ => []

/-- One step of the message-schedule extension: append `w[i]` computed from
`w[i-16]`, `w[i-15]`, `w[i-7]`, `w[i-2]`. -/
def schedW (w : List Nat) : Nat :=
  let i := w.length
  let a := w.getD (i - 15) 0
  let b := w.getD (i - 2) 0
  let s0 := (rotr 7 a) ^^^ (rotr 18 a) ^^^ (shr 3 a)
  let s1 := (rotr 17 b) ^^^ (rotr 19 b) ^^^ (shr 10 b)
  (w.getD (i - 16) 0 + s0 + w.getD (i - 7) 0 + s1) % m32

/-- Extend the 16 block words to 64 schedule words. -/
def extendW : Nat → List Nat → List Nat
  | 0, w => w
  | n + 1, w => extendW n (w ++ [schedW w])

/-- One SHA-256 compression round; `kw` is the pair of round constant and
schedule word. -/
def shaRound (st : Hash8) (kw : Nat × Nat) : Hash8 :=
  let S1 := (rotr 6 st.w4) ^^^ (rotr 11 st.w4) ^^^ (rotr 25 st.w4)
  let ch := (st.w4 &&& st.w5) ^^^ ((4294967295 - st.w4) &&& st.w6)
  let temp1 := (st.w7 + S1 + ch + kw.1 + kw.2) % m32
  let S0 := (rotr 2 st.w0) ^^^ (rotr 13 st.w0) ^^^ (rotr 22 st.w0)
  let maj := (st.w0 &&& st.w1) ^^^ (st.w0 &&& st.w2) ^^^ (st.w1 &&& st.w2)
  let temp2 := (S0 + maj) % m32
  ⟨(temp1 + temp2) % m32, st.w0, st.w1, st.w2,
   (st.w3 + temp1) % m32, st.w4, st.w5, st.w6⟩

/-- Compress one 64-byte block into the running state. -/
def compressBlock (st : Hash8) (block : List Nat) : Hash8 :=
  let w := extendW 48 (toWords block)
  let t := (shaK.zip w).foldl shaRound st
  ⟨(st.w0 + t.w0) % m32, (st.w1 + t.w1) % m32, (st.w2 + t.w2) % m32,
   (st.w3 + t.w3) % m32, (st.w4 + t.w4) % m32, (st.w5 + t.w5) % m32,
   (st.w6 + t.w6) % m32, (st.w7 + t.w7) % m32⟩

/-- Big-endian 64-bit length field. -/
def lenBytes (n : Nat) : List Nat :=
  [n / 72057594037927936 % 256, n / 281474976710656 % 256,
   n / 1099511627776 % 256, n / 4294967296 % 256,
   n / 16777216 % 256, n / 65536 % 256, n / 256 % 256, n % 256]

/-- SHA-256 padding: `0x80`, zeros to 56 mod 64, then the bit length. -/
def padBytes (bytes : List Nat) : List Nat :=
  let len := bytes.length
  bytes ++ 128 :: List.replicate ((119 - len % 64) % 64) 0 ++ lenBytes (8 * len)

/-- Split a byte list into 64-byte blocks (the fuel argument, at least the
list length, makes the recursion structural). -/
def chunksGo : Nat → List Nat → List (List Nat)
  | 0, _ => []
  | _, [] => []
  | n + 1, b :: rest => ((b :: rest).take 64) :: chunksGo n ((b :: rest).drop 64)

/-- Split a byte list into 64-byte blocks. -/
def chunks64 (l : List Nat) : List (List Nat) := chunksGo l.length l

/-- SHA-256 of a byte list. -/
def sha256digest (bytes : List Nat) : Hash8 :=
  (chunks64 (padBytes bytes)).foldl compressBlock shaInit

/-- Eight hex digits of one 32-bit word. -/
def toHex8 (n : Nat) : String :=
  String.mk [hexDig (n / 268435456 % 16), hexDig (n / 16777216 % 16),
             hexDig (n / 1048576 % 16), hexDig (n / 65536 % 16),
             hexDig (n / 4096 % 16), hexDig (n / 256 % 16),
             hexDig (n / 16 % 16), hexDig (n % 16)]

/-- The 64-character hex digest of a state. -/
def hashHex (st : Hash8) : String :=
  toHex8 st.w0 ++ toHex8 st.w1 ++ toHex8 st.w2 ++ toHex8 st.w3 ++
  toHex8 st.w4 ++ toHex8 st.w5 ++ toHex8 st.w6 ++ toHex8 st.w7

/-- `hashlib.sha256(s.encode()).hexdigest()`. -/
def sha256hex (s : String) : String := hashHex (sha256digest (utf8Bytes s))

/-! ## Signature and replay checks (`license_web_admin.py` lines 252-266) -/

/-- The process-wide signing secret (`LICENSE_SECRET_KEY` default). -/
def SECRET_KEY : String :=
  "eb3aad213730b203eef01da1d9bbbc0c63070a008c2fba734999622ad9981479"

/-- The copy of the payload that gets signed: `signature`, `timestamp` and
`nonce` are popped before serialization (lines 254-257). -/
def stripAuth (data : List (String × JVal)) : List (String × JVal) :=
  jremove (jremove (jremove data "signature") "timestamp") "nonce"

/-- `json.dumps(data_copy, sort_keys=True)` of the stripped payload (line 258). -/
def canonicalString (data : List (String × JVal)) : String :=
  dumpObjSorted (stripAuth data)

/-- `verify_signature(data, signature)` (lines 252-261): double SHA-256 of the
canonical payload concatenated with the secret, compared with the presented
signature (the popped `signature` value, hence a `JVal`; the comparison is
Python `==`, false whenever the value is not the expected string). -/
def verify_signature (data : List (String × JVal)) (signature : JVal) : Bool :=
  let data_str := canonicalString data
  let hash1 := sha256hex (data_str ++ SECRET_KEY)
  let expected_signature := sha256hex (hash1 ++ SECRET_KEY)
  decide (jstr expected_signature = signature)

/-- Modelled from the spec: the client-side signing routine `sign(P, S)` is not
under `src/` (only `verify_signature` is); §4.1 of the spec describes it as the
same double SHA-256 over the canonical serialization of the payload with the
auth fields removed, with the process secret. -/
def make_signature (data : List (String × JVal)) : String :=
  let data_str := canonicalString data
  sha256hex (sha256hex (data_str ++ SECRET_KEY) ++ SECRET_KEY)

/-- `check_timestamp(timestamp)` (lines 263-266): the request timestamp must be
within 300 seconds of the current clock, in either direction. -/
def check_timestamp (now timestamp : Int) : Bool :=
  decide ((now - timestamp).natAbs < 300)

/-! ## The licenses table -/

/-- One row of the `licenses` table (schema lines 176-189).  `Option` encodes
SQL NULL; timestamps are modelled as integers. -/
structure License where
  key : String
  created_at : Int
  expires_at : Option Int
  device_id : Option String
  device_info : Option String
  activated_at : Option Int
  status : String
  last_check : Option Int
  heartbeat_last : Option Int
deriving DecidableEq, Repr

/-- `UPDATE licenses SET ... WHERE p`: apply `f` to every row satisfying `p`. -/
def updateWhere (p : License → Bool) (f : License → License)
    (db : List License) : List License :=
  db.map (fun r => if p r then f r else r)

/-- SQL equality of the TEXT `key` column against the request's `key` value
(`WHERE key = %s`): only a string parameter equal to the key matches. -/
def sqlEqKey (k : String) : Option JVal → Bool
  | some (jstr s) => decide (k = s)
  | _ => false

/-- SQL equality of the nullable `device_id` column against the request's
`device_id` value (`WHERE device_id = %s`): NULL never compares equal. -/
def sqlEqDev : Option String → Option JVal → Bool
  | some d, some (jstr s) => decide (d = s)
  | _, _ => false

/-- Python `==` between the stored `device_id` string and the request value
(`license_info['device_id'] != device_id` is the negation of this). -/
def pyEqDev (d : String) : Option JVal → Bool
  | some (jstr s) => decide (d = s)
  | _ => false

/-- The guard `license_info['device_id'] and license_info['device_id'] !=
device_id` shared by check/activate/deactivate: a truthy stored binding that
differs from the request's `device_id`. -/
def devMismatch (lic : License) (devv : Option JVal) : Bool :=
  match lic.device_id with
  | none => false
  | some d => !(decide (d = "")) && !(pyEqDev d devv)

/-- `if license_info['expires_at']: ... if datetime.now() > expires:` — the
stored expiry is present and strictly before the current time. -/
def expiredNow (now : Int) (lic : License) : Bool :=
  match lic.expires_at with
  | none => false
  | some t => decide (t < now)

/-- The `expires` field echoed by a successful check (lines 1499-1512):
the stored expiry rendered as a string, or `null`. -/
def expiresField (lic : License) : JVal :=
  match lic.expires_at with
  | none => jnull
  | some t => jstr (toString t)

/-- `data.get('timestamp', 0)` followed by its use in integer arithmetic:
a missing field defaults to `0`, a Python `bool` is an `int`, and any other
non-integer value raises `TypeError`, caught by the handler's `except` (the
`none` result selects the 500 branch). -/
def getTs (data : List (String × JVal)) : Option Int :=
  match jget data "timestamp" with
  | none => some 0
  | some (jint n) => some n
  | some (jbool b) => some (if b then 1 else 0)
  | some _ => none

/-- An HTTP response: the JSON body and the status code. -/
structure Resp where
  body : List (String × JVal)
  code : Nat
deriving DecidableEq, Repr

/-- A `{flag: b, "message": msg}` response body with a status code, for
`flag` ∈ {`"valid"`, `"success"`}. -/
def respB (flag : String) (b : Bool) (msg : String) (code : Nat) : Resp :=
  ⟨[(flag, jbool b), ("message", jstr msg)], code⟩

/-- The stored `device_id` column written by activation: the request's string,
NULL for a missing or `null` value; other JSON values are modelled by their
serialized text. -/
def storeDev : Option JVal → Option String
  | some (jstr s) => some s
  | some jnull => none
  | none => none
  | some v => some (dumpValPlain v)

/-- `json.dumps(device_info)` as stored by activation: a missing field is
`None`, serializing to the string `"null"`. -/
def storeInfo : Option JVal → String
  | none => "null"
  | some v => dumpValPlain v

/-! ## Client-facing operations (`/api/v1/license/...`) -/

/-- The post-authentication logic of `check_license` (lines 1448-1513),
applied to the request body with `signature` already popped. -/
def checkCore (now : Int) (db : List License)
    (body : List (String × JVal)) : Resp × List License :=
  let keyv := jget body "key"
  let devv := jget body "device_id"
  if !(jtruthyO keyv) then (respB "valid" false "Ключ не указан" 400, db) else
  match db.find? (fun r => sqlEqKey r.key keyv) with
  | none => (respB "valid" false "Ключ не найден" 200, db)
  | some lic =>
  if lic.status = "blocked" then
    (respB "valid" false "Ключ заблокирован" 200, db) else
  if expiredNow now lic then
    (respB "valid" false "Лицензия истекла и заблокирована" 200,
     updateWhere (fun r => sqlEqKey r.key keyv)
       (fun r => { r with status := "blocked" }) db) else
  if devMismatch lic devv then
    (respB "valid" false "Ключ привязан к другому устройству" 200, db) else
  (⟨[("valid", jbool true), ("message", jstr "Лицензия активна"),
     ("expires", expiresField lic)], 200⟩,
   updateWhere (fun r => sqlEqKey r.key keyv)
     (fun r => { r with last_check := some now }) db)

/-- `POST /api/v1/license/check` (`check_license`, lines 1431-1517).
Takes the current time, the table, and the request JSON; returns the response
and the updated table. -/
def check_license (now : Int) (db : List License)
    (data : List (String × JVal)) : Resp × List License :=
  if data.isEmpty then (respB "valid" false "Пустой запрос" 400, db) else
  let signature := (jget data "signature").getD (jstr "")
  let body := jremove data "signature"
  match getTs body with
  | none => (respB "valid" false "Ошибка сервера" 500, db)
  | some ts =>
  if !(check_timestamp now ts) then
    (respB "valid" false "Устаревший запрос" 403, db) else
  if !(verify_signature body signature) then
    (respB "valid" false "Неверная подпись" 403, db) else
  checkCore now db body

/-- The `UPDATE` of a successful activation (lines 1577-1589): binding fields
and `status = 'active'`, on every row with the requested key. -/
def activateApply (now : Int) (keyv devv dinfov : Option JVal)
    (db : List License) : List License :=
  updateWhere (fun r => sqlEqKey r.key keyv)
    (fun r => { r with device_id := storeDev devv,
                       device_info := some (storeInfo dinfov),
                       activated_at := some now,
                       status := "active" }) db

/-- The guard of `activate_license` on the row it read (lines 1558-1575):
`True` when none of the blocked / expired / device-mismatch rejections fires.
Isolated because the interleaving analysis (C9) needs the read-time decision
separately from the write. -/
def activateGuardOk (now : Int) (lic : License) (devv : Option JVal) : Bool :=
  !(decide (lic.status = "blocked")) && !(expiredNow now lic) &&
  !(devMismatch lic devv)

/-- The post-authentication logic of `activate_license` (lines 1536-1594). -/
def activateCore (now : Int) (db : List License)
    (body : List (String × JVal)) : Resp × List License :=
  let keyv := jget body "key"
  let devv := jget body "device_id"
  let dinfov := jget body "device_info"
  if !(jtruthyO keyv) then
    (respB "success" false "Ключ не указан" 400, db) else
  match db.find? (fun r => sqlEqKey r.key keyv) with
  | none => (respB "success" false "Ключ не найден" 200, db)
  | some lic =>
  if lic.status = "blocked" then
    (respB "success" false "Ключ заблокирован" 200, db) else
  if expiredNow now lic then
    (respB "success" false "Лицензия истекла" 200,
     updateWhere (fun r => sqlEqKey r.key keyv)
       (fun r => { r with status := "expired" }) db) else
  if devMismatch lic devv then
    (respB "success" false "Ключ уже привязан к другому устройству" 200, db) else
  (respB "success" true "Ключ активирован" 200,
   activateApply now keyv devv dinfov db)

/-- `POST /api/v1/license/activate` (`activate_license`, lines 1519-1598). -/
def activate_license (now : Int) (db : List License)
    (data : List (String × JVal)) : Resp × List License :=
  if data.isEmpty then (respB "success" false "Пустой запрос" 400, db) else
  let signature := (jget data "signature").getD (jstr "")
  let body := jremove data "signature"
  match getTs body with
  | none => (respB "success" false "Ошибка сервера" 500, db)
  | some ts =>
  if !(check_timestamp now ts) then
    (respB "success" false "Устаревший запрос" 403, db) else
  if !(verify_signature body signature) then
    (respB "success" false "Неверная подпись" 403, db) else
  activateCore now db body

/-- The post-authentication logic of `deactivate_license` (lines 1617-1652).
Note: no status or expiry check — only the device-mismatch guard. -/
def deactivateCore (_now : Int) (db : List License)
    (body : List (String × JVal)) : Resp × List License :=
  let keyv := jget body "key"
  let devv := jget body "device_id"
  if !(jtruthyO keyv) then
    (respB "success" false "Ключ не указан" 400, db) else
  match db.find? (fun r => sqlEqKey r.key keyv) with
  | none => (respB "success" false "Ключ не найден" 200, db)
  | some lic =>
  if devMismatch lic devv then
    (respB "success" false "Ключ привязан к другому устройству" 200, db) else
  (respB "success" true "Ключ заблокирован" 200,
   updateWhere (fun r => sqlEqKey r.key keyv)
     (fun r => { r with status := "blocked" }) db)

/-- `POST /api/v1/license/deactivate` (`deactivate_license`, lines 1600-1656). -/
def deactivate_license (now : Int) (db : List License)
    (data : List (String × JVal)) : Resp × List License :=
  if data.isEmpty then (respB "success" false "Пустой запрос" 400, db) else
  let signature := (jget data "signature").getD (jstr "")
  let body := jremove data "signature"
  match getTs body with
  | none => (respB "success" false "Ошибка сервера" 500, db)
  | some ts =>
  if !(check_timestamp now ts) then
    (respB "success" false "Устаревший запрос" 403, db) else
  if !(verify_signature body signature) then
    (respB "success" false "Неверная подпись" 403, db) else
  deactivateCore now db body

/-- The post-authentication logic of `heartbeat` (lines 1672-1697): update
`heartbeat_last` on rows matching both `key` and `device_id`, and report
success whether or not anything matched. -/
def heartbeatCore (now : Int) (db : List License)
    (body : List (String × JVal)) : Resp × List License :=
  let keyv := jget body "key"
  let devv := jget body "device_id"
  (⟨[("success", jbool true)], 200⟩,
   updateWhere (fun r => sqlEqKey r.key keyv && sqlEqDev r.device_id devv)
     (fun r => { r with heartbeat_last := some now }) db)

/-- `POST /api/v1/license/heartbeat` (`heartbeat`, lines 1658-1701).
No emptiness or key-truthiness guards; the update is keyed on both `key` and
`device_id` and the response is success-shaped regardless of a match. -/
def heartbeat (now : Int) (db : List License)
    (data : List (String × JVal)) : Resp × List License :=
  let signature := (jget data "signature").getD (jstr "")
  let body := jremove data "signature"
  match getTs body with
  | none => (respB "success" false "Ошибка" 500, db)
  | some ts =>
  if !(check_timestamp now ts) then
    (respB "success" false "Устаревший запрос" 403, db) else
  if !(verify_signature body signature) then
    (respB "success" false "Неверная подпись" 403, db) else
  heartbeatCore now db body

/-! ## Administrative operations (`/api/...`), which bypass all guards -/

/-- `POST /api/generate` (`api_generate`, lines 1240-1275): insert a fresh
`active`, unbound row; the random key and the clock are parameters. -/
def api_generate (now : Int) (days : Option Int) (freshKey : String)
    (db : List License) : Resp × List License :=
  (⟨[("success", jbool true), ("key", jstr freshKey)], 200⟩,
   db ++ [{ key := freshKey, created_at := now,
            expires_at := days.map (fun d => now + d * 86400),
            device_id := none, device_info := none, activated_at := none,
            status := "active", last_check := none, heartbeat_last := none }])

/-- `POST /api/block` (`api_block`, lines 1320-1343). -/
def api_block (k : String) (db : List License) : Resp × List License :=
  (⟨[("success", jbool true)], 200⟩,
   updateWhere (fun r => decide (r.key = k))
     (fun r => { r with status := "blocked" }) db)

/-- `POST /api/unblock` (`api_unblock`, lines 1345-1368). -/
def api_unblock (k : String) (db : List License) : Resp × List License :=
  (⟨[("success", jbool true)], 200⟩,
   updateWhere (fun r => decide (r.key = k))
     (fun r => { r with status := "active" }) db)

/-- `POST /api/unbind` (`api_unbind`, lines 1370-1395): clear the three
binding columns, leaving `status` untouched. -/
def api_unbind (k : String) (db : List License) : Resp × List License :=
  (⟨[("success", jbool true), ("message", jstr "Устройство отвязано")], 200⟩,
   updateWhere (fun r => decide (r.key = k))
     (fun r => { r with device_id := none, device_info := none,
                        activated_at := none }) db)

/-- `POST /api/delete` (`api_delete`, lines 1397-1428). -/
def api_delete (k : String) (db : List License) : List License :=
  db.filter (fun r => !(decide (r.key = k)))

/-! ## Basic lemmas about the embedding -/

/-- A payload verifies against the signature produced by the (spec-modelled)
signing routine of any payload with the same signed material. -/
theorem verify_signature_make (data data' : List (String × JVal))
    (h : stripAuth data = stripAuth data') :
    verify_signature data (jstr (make_signature data')) = true := by
  unfold verify_signature make_signature canonicalString
  rw [h]
  exact decide_eq_true rfl

/-- Fixed-width hex rendering of one word has eight characters. -/
theorem toHex8_length (n : Nat) : (toHex8 n).length = 8 := rfl

/-- Every hex digest has 64 characters, whatever the input. -/
theorem sha256hex_length (s : String) : (sha256hex s).length = 64 := by
  unfold sha256hex hashHex
  simp [String.length_append, toHex8_length]

/-- A candidate signature of the wrong length never verifies. -/
theorem verify_signature_ne_len (data : List (String × JVal)) (s : String)
    (h : s.length ≠ 64) :
    verify_signature data (jstr s) = false := by
  unfold verify_signature
  apply decide_eq_false
  intro heq
  exact h (JVal.jstr.inj heq ▸ sha256hex_length _)

/-- `find?` after a guarded update: the first matching row comes back updated,
provided the update does not change matching. -/
theorem find?_updateWhere_pos (p : License → Bool) (f : License → License)
    (db : List License) (lic : License)
    (hf : ∀ r, p (f r) = p r) (h : db.find? p = some lic) :
    (updateWhere p f db).find? p = some (f lic) := by
  induction db with
  | nil => cases h
  | cons r rest ih =>
    by_cases hr : p r = true
    · rw [List.find?_cons_of_pos _ hr] at h
      injection h with h'
      subst h'
      simp only [updateWhere, List.map_cons, hr, if_true]
      exact List.find?_cons_of_pos _ (by rw [hf, hr])
    · have hr' : p r = false := by revert hr; cases p r <;> simp
      rw [List.find?_cons_of_neg _ (by simp [hr'])] at h
      simp only [updateWhere, List.map_cons, hr', if_false]
      rw [List.find?_cons_of_neg _ (by simp [hr'])]
      exact ih h

/-! ## Request builders used by the claim statements -/

/-- A check / deactivate / heartbeat request body. -/
def creq (k : String) (dev : JVal) (ts : Int) (sig : String) :
    List (String × JVal) :=
  [("key", jstr k), ("device_id", dev), ("timestamp", jint ts),
   ("signature", jstr sig)]

/-- An activate request body (with `device_info`). -/
def careq (k : String) (dev dinfo : JVal) (ts : Int) (sig : String) :
    List (String × JVal) :=
  [("key", jstr k), ("device_id", dev), ("device_info", dinfo),
   ("timestamp", jint ts), ("signature", jstr sig)]

/-- An activate request body with no `device_id` field at all. -/
def careqNoDev (k : String) (dinfo : JVal) (ts : Int) (sig : String) :
    List (String × JVal) :=
  [("key", jstr k), ("device_info", dinfo), ("timestamp", jint ts),
   ("signature", jstr sig)]

theorem creq_body (k : String) (dev : JVal) (ts : Int) (sig : String) :
    jremove (creq k dev ts sig) "signature" =
      [("key", jstr k), ("device_id", dev), ("timestamp", jint ts)] := rfl

theorem careq_body (k : String) (dev dinfo : JVal) (ts : Int) (sig : String) :
    jremove (careq k dev dinfo ts sig) "signature" =
      [("key", jstr k), ("device_id", dev), ("device_info", dinfo),
       ("timestamp", jint ts)] := rfl

theorem careqNoDev_body (k : String) (dinfo : JVal) (ts : Int) (sig : String) :
    jremove (careqNoDev k dinfo ts sig) "signature" =
      [("key", jstr k), ("device_info", dinfo), ("timestamp", jint ts)] := rfl

/-! ## Authentication-passage lemmas: with a fresh timestamp and a verifying
signature each endpoint reduces to its post-authentication core. -/

theorem check_license_auth (now : Int) (db : List License)
    (data : List (String × JVal)) (ts : Int)
    (hne : data.isEmpty = false)
    (hts : getTs (jremove data "signature") = some ts)
    (hfresh : check_timestamp now ts = true)
    (hsig : verify_signature (jremove data "signature")
      ((jget data "signature").getD (jstr "")) = true) :
    check_license now db data = checkCore now db (jremove data "signature") := by
  simp [check_license, hne, hts, hfresh, hsig]

theorem activate_license_auth (now : Int) (db : List License)
    (data : List (String × JVal)) (ts : Int)
    (hne : data.isEmpty = false)
    (hts : getTs (jremove data "signature") = some ts)
    (hfresh : check_timestamp now ts = true)
    (hsig : verify_signature (jremove data "signature")
      ((jget data "signature").getD (jstr "")) = true) :
    activate_license now db data =
      activateCore now db (jremove data "signature") := by
  simp [activate_license, hne, hts, hfresh, hsig]

theorem deactivate_license_auth (now : Int) (db : List License)
    (data : List (String × JVal)) (ts : Int)
    (hne : data.isEmpty = false)
    (hts : getTs (jremove data "signature") = some ts)
    (hfresh : check_timestamp now ts = true)
    (hsig : verify_signature (jremove data "signature")
      ((jget data "signature").getD (jstr "")) = true) :
    deactivate_license now db data =
      deactivateCore now db (jremove data "signature") := by
  simp [deactivate_license, hne, hts, hfresh, hsig]

theorem heartbeat_auth (now : Int) (db : List License)
    (data : List (String × JVal)) (ts : Int)
    (hts : getTs (jremove data "signature") = some ts)
    (hfresh : check_timestamp now ts = true)
    (hsig : verify_signature (jremove data "signature")
      ((jget data "signature").getD (jstr "")) = true) :
    heartbeat now db data = heartbeatCore now db (jremove data "signature") := by
  simp [heartbeat, hts, hfresh, hsig]

/-! ## Claim C10 -/

/-- **C10** (confirmed): for every existing license whose `device_id` is
absent, an authenticated deactivate with any `device_id` value in the request
returns `success:true` and sets the stored status to `blocked`, regardless of
the current status — the device-mismatch guard only applies when a binding is
present. -/
theorem C10_deactivate_unbound_blocks (now ts : Int) (db : List License)
    (k : String) (dev : JVal) (sig : String) (lic : License)
    (hk : k ≠ "")
    (hfresh : check_timestamp now ts = true)
    (hsig : verify_signature (jremove (creq k dev ts sig) "signature")
      (jstr sig) = true)
    (hfound : db.find? (fun r => sqlEqKey r.key (some (jstr k))) = some lic)
    (hunbound : lic.device_id = none) :
    (deactivate_license now db (creq k dev ts sig)).1 =
      respB "success" true "Ключ заблокирован" 200 ∧
    ((deactivate_license now db (creq k dev ts sig)).2).find?
        (fun r => sqlEqKey r.key (some (jstr k))) =
      some { lic with status := "blocked" } := by
  rw [deactivate_license_auth now db (creq k dev ts sig) ts rfl rfl hfresh hsig,
    creq_body]
  simp only [deactivateCore, jget, List.find?, jtruthyO, jtruthy]
  norm_num
  rw [hfound]
  simp only [devMismatch, hunbound, hk]
  norm_num
  simpa [hunbound] using
    find?_updateWhere_pos (fun r => sqlEqKey r.key (some (jstr k)))
      (fun r => { r with status := "blocked" }) db lic (fun r => rfl) hfound

/-- A concrete unbound license (status `expired`, to witness "regardless of
status"). -/
def licC10 : License :=
  { key := "TS-AAAAAAAAAAAAAAAA", created_at := 0, expires_at := none,
    device_id := none, device_info := none, activated_at := none,
    status := "expired", last_check := none, heartbeat_last := none }

/-- The signature a client would attach to the C10 witness request. -/
def sigC10 : String :=
  make_signature [("key", jstr "TS-AAAAAAAAAAAAAAAA"), ("device_id", jstr "DX")]

/-- Witness for C10 at a concrete input. -/
theorem C10_witness :
    (deactivate_license 0 [licC10]
        (creq "TS-AAAAAAAAAAAAAAAA" (jstr "DX") 0 sigC10)).1 =
      respB "success" true "Ключ заблокирован" 200 ∧
    ((deactivate_license 0 [licC10]
        (creq "TS-AAAAAAAAAAAAAAAA" (jstr "DX") 0 sigC10)).2).find?
        (fun r => sqlEqKey r.key (some (jstr "TS-AAAAAAAAAAAAAAAA"))) =
      some { licC10 with status := "blocked" } :=
  C10_deactivate_unbound_blocks 0 0 [licC10] "TS-AAAAAAAAAAAAAAAA" (jstr "DX")
    sigC10 licC10 (by decide) (by decide)
    (verify_signature_make _ _ rfl) rfl rfl

/-! ## Claim C6 -/

/-- **C6** (confirmed): deactivating a license bound to `d` with
`device_id = d` returns success and sets status to `blocked` while leaving
`device_id`, `device_info` and `activated_at` exactly as they were; the admin
unbind clears those three fields and leaves `status` (and everything else)
unchanged. -/
theorem C6_deactivate_keeps_binding_unbind_keeps_status
    (now ts : Int) (db db2 : List License)
    (k d : String) (sig : String) (lic lic2 : License)
    (hk : k ≠ "")
    (hfresh : check_timestamp now ts = true)
    (hsig : verify_signature (jremove (creq k (jstr d) ts sig) "signature")
      (jstr sig) = true)
    (hfound : db.find? (fun r => sqlEqKey r.key (some (jstr k))) = some lic)
    (hbound : lic.device_id = some d)
    (hfound2 : db2.find? (fun r => decide (r.key = k)) = some lic2) :
    ((deactivate_license now db (creq k (jstr d) ts sig)).1 =
        respB "success" true "Ключ заблокирован" 200 ∧
      ((deactivate_license now db (creq k (jstr d) ts sig)).2).find?
          (fun r => sqlEqKey r.key (some (jstr k))) =
        some { lic with status := "blocked" }) ∧
    ((api_unbind k db2).2.find? (fun r => decide (r.key = k)) =
      some { lic2 with device_id := none, device_info := none,
                       activated_at := none }) := by
  refine ⟨?_, ?_⟩
  · rw [deactivate_license_auth now db (creq k (jstr d) ts sig) ts rfl rfl
      hfresh hsig, creq_body]
    simp only [deactivateCore, jget, List.find?, jtruthyO, jtruthy]
    norm_num
    rw [hfound]
    simp only [devMismatch, hbound, pyEqDev, hk]
    norm_num
    simpa [hbound] using
      find?_updateWhere_pos (fun r => sqlEqKey r.key (some (jstr k)))
        (fun r => { r with status := "blocked" }) db lic (fun r => rfl) hfound
  · simpa using
      find?_updateWhere_pos (fun r => decide (r.key = k))
        (fun r => { r with device_id := none, device_info := none,
                           activated_at := none })
        db2 lic2 (fun r => rfl) hfound2

/-- A concrete bound license for the C6 witness. -/
def licC6 : License :=
  { key := "TS-BBBBBBBBBBBBBBBB", created_at := 0, expires_at := none,
    device_id := some "D1", device_info := some "{}", activated_at := some 3,
    status := "active", last_check := none, heartbeat_last := none }

/-- The signature of the C6 witness request. -/
def sigC6 : String :=
  make_signature [("key", jstr "TS-BBBBBBBBBBBBBBBB"), ("device_id", jstr "D1")]

/-- Witness for C6 at a concrete input. -/
theorem C6_witness :
    ((deactivate_license 5 [licC6]
        (creq "TS-BBBBBBBBBBBBBBBB" (jstr "D1") 5 sigC6)).1 =
        respB "success" true "Ключ заблокирован" 200 ∧
      ((deactivate_license 5 [licC6]
          (creq "TS-BBBBBBBBBBBBBBBB" (jstr "D1") 5 sigC6)).2).find?
          (fun r => sqlEqKey r.key (some (jstr "TS-BBBBBBBBBBBBBBBB"))) =
        some { licC6 with status := "blocked" }) ∧
    ((api_unbind "TS-BBBBBBBBBBBBBBBB" [licC6]).2.find?
        (fun r => decide (r.key = "TS-BBBBBBBBBBBBBBBB")) =
      some { licC6 with device_id := none, device_info := none,
                        activated_at := none }) :=
  C6_deactivate_keeps_binding_unbind_keeps_status 5 5 [licC6] [licC6]
    "TS-BBBBBBBBBBBBBBBB" "D1" sigC6 licC6 licC6 (by decide) (by decide)
    (verify_signature_make _ _ rfl) rfl rfl rfl

/-! ## Claim C7 -/

/-- **C7** (confirmed): an authenticated heartbeat answers `success:true`
unconditionally — also when no row matches — and the only change to the table
is `heartbeat_last := now` on exactly the rows matching both the requested key
and the requested device. -/
theorem C7_heartbeat_best_effort (now ts : Int) (db : List License)
    (k : String) (dev : JVal) (sig : String)
    (hfresh : check_timestamp now ts = true)
    (hsig : verify_signature (jremove (creq k dev ts sig) "signature")
      (jstr sig) = true) :
    (heartbeat now db (creq k dev ts sig)).1 =
      ⟨[("success", jbool true)], 200⟩ ∧
    (heartbeat now db (creq k dev ts sig)).2 =
      db.map (fun r =>
        if sqlEqKey r.key (some (jstr k)) && sqlEqDev r.device_id (some dev)
        then { r with heartbeat_last := some now } else r) ∧
    ((∀ r ∈ db, (sqlEqKey r.key (some (jstr k)) &&
        sqlEqDev r.device_id (some dev)) = false) →
      (heartbeat now db (creq k dev ts sig)).2 = db) := by
  rw [heartbeat_auth now db (creq k dev ts sig) ts rfl hfresh hsig, creq_body]
  refine ⟨rfl, rfl, fun h => ?_⟩
  simp only [heartbeatCore, jget, List.find?]
  norm_num
  calc (updateWhere
          (fun r => sqlEqKey r.key (some (jstr k)) &&
            sqlEqDev r.device_id (some dev))
          (fun r => { r with heartbeat_last := some now }) db)
      = db.map id := List.map_congr_left (fun r hr => by simp [h r hr])
    _ = db := List.map_id db

/-- A concrete bound license for the C7 witness (the heartbeat request below
matches neither its key nor its device). -/
def licC7 : License :=
  { key := "TS-CCCCCCCCCCCCCCCC", created_at := 0, expires_at := none,
    device_id := some "D1", device_info := some "{}", activated_at := some 1,
    status := "active", last_check := none, heartbeat_last := none }

/-- The signature of the C7 witness request. -/
def sigC7 : String :=
  make_signature [("key", jstr "TS-MISSING"), ("device_id", jstr "D2")]

/-- Witness for C7 at a concrete input with no matching row. -/
theorem C7_witness :
    (heartbeat 9 [licC7] (creq "TS-MISSING" (jstr "D2") 9 sigC7)).1 =
      ⟨[("success", jbool true)], 200⟩ ∧
    (heartbeat 9 [licC7] (creq "TS-MISSING" (jstr "D2") 9 sigC7)).2 =
      [licC7].map (fun r =>
        if sqlEqKey r.key (some (jstr "TS-MISSING")) &&
            sqlEqDev r.device_id (some (jstr "D2"))
        then { r with heartbeat_last := some 9 } else r) ∧
    ((∀ r ∈ [licC7], (sqlEqKey r.key (some (jstr "TS-MISSING")) &&
        sqlEqDev r.device_id (some (jstr "D2"))) = false) →
      (heartbeat 9 [licC7] (creq "TS-MISSING" (jstr "D2") 9 sigC7)).2 =
        [licC7]) :=
  C7_heartbeat_best_effort 9 9 [licC7] "TS-MISSING" (jstr "D2") sigC7
    (by decide) (verify_signature_make _ _ rfl)

/-! ## Claim C1 -/

/-- `checkCore` on a found row whose status is `blocked`: rejected with no
state change (lines 1469-1472). -/
theorem checkCore_found_blocked (now : Int) (db : List License) (k : String)
    (dev : JVal) (ts : Int) (lic : License)
    (hk : k ≠ "")
    (hfound : db.find? (fun r => sqlEqKey r.key (some (jstr k))) = some lic)
    (hblocked : lic.status = "blocked") :
    checkCore now db
        [("key", jstr k), ("device_id", dev), ("timestamp", jint ts)] =
      (respB "valid" false "Ключ заблокирован" 200, db) := by
  simp only [checkCore, jget, List.find?, jtruthyO, jtruthy]
  norm_num
  rw [hfound]
  simp [hblocked, hk]

/-- `checkCore` on a found, not-blocked row whose expiry has passed: rejected,
and the row's status is persistently set to `blocked` (lines 1474-1482). -/
theorem checkCore_found_expired (now : Int) (db : List License) (k : String)
    (dev : JVal) (ts : Int) (lic : License) (t : Int)
    (hk : k ≠ "")
    (hfound : db.find? (fun r => sqlEqKey r.key (some (jstr k))) = some lic)
    (hnb : ¬(lic.status = "blocked"))
    (hexp : lic.expires_at = some t) (hlt : t < now) :
    checkCore now db
        [("key", jstr k), ("device_id", dev), ("timestamp", jint ts)] =
      (respB "valid" false "Лицензия истекла и заблокирована" 200,
       updateWhere (fun r => sqlEqKey r.key (some (jstr k)))
         (fun r => { r with status := "blocked" }) db) := by
  simp only [checkCore, jget, List.find?, jtruthyO, jtruthy]
  norm_num
  rw [hfound]
  simp [hnb, hk, expiredNow, hexp, hlt]

/-- **C1** (confirmed): an authenticated check of a license whose stored
expiry is in the past answers `valid:false` and persistently marks the row
`blocked`; an authenticated repeat check finds the blocked row, answers
`valid:false` again and leaves the table exactly unchanged — the latch fires
at most once. -/
theorem C1_check_expiry_latch (now now2 ts ts2 : Int) (db : List License)
    (k : String) (dev dev2 : JVal) (sig sig2 : String) (lic : License) (t : Int)
    (hk : k ≠ "")
    (hfresh : check_timestamp now ts = true)
    (hsig : verify_signature (jremove (creq k dev ts sig) "signature")
      (jstr sig) = true)
    (hfound : db.find? (fun r => sqlEqKey r.key (some (jstr k))) = some lic)
    (hexp : lic.expires_at = some t) (hlt : t < now)
    (hfresh2 : check_timestamp now2 ts2 = true)
    (hsig2 : verify_signature (jremove (creq k dev2 ts2 sig2) "signature")
      (jstr sig2) = true) :
    jget (check_license now db (creq k dev ts sig)).1.body "valid" =
      some (jbool false) ∧
    (check_license now db (creq k dev ts sig)).2.find?
        (fun r => sqlEqKey r.key (some (jstr k))) =
      some { lic with status := "blocked" } ∧
    check_license now2 (check_license now db (creq k dev ts sig)).2
        (creq k dev2 ts2 sig2) =
      (respB "valid" false "Ключ заблокирован" 200,
       (check_license now db (creq k dev ts sig)).2) := by
  rw [check_license_auth now db (creq k dev ts sig) ts rfl rfl hfresh hsig,
    creq_body]
  rw [check_license_auth now2 _ (creq k dev2 ts2 sig2) ts2 rfl rfl hfresh2
    hsig2, creq_body]
  by_cases hb : lic.status = "blocked"
  · rw [checkCore_found_blocked now db k dev ts lic hk hfound hb]
    have hlic : ({ lic with status := "blocked" } : License) = lic := by
      cases lic
      simp_all
    rw [checkCore_found_blocked now2 db k dev2 ts2 lic hk hfound hb]
    refine ⟨rfl, ?_, rfl⟩
    rw [hlic]
    exact hfound
  · rw [checkCore_found_expired now db k dev ts lic t hk hfound hb hexp hlt]
    have hf2 : (updateWhere (fun r => sqlEqKey r.key (some (jstr k)))
        (fun r => { r with status := "blocked" }) db).find?
          (fun r => sqlEqKey r.key (some (jstr k))) =
        some { lic with status := "blocked" } :=
      find?_updateWhere_pos _ _ db lic (fun r => rfl) hfound
    rw [checkCore_found_blocked now2 _ k dev2 ts2 _ hk hf2 rfl]
    exact ⟨rfl, hf2, rfl⟩

/-- A concrete license whose expiry (50) is before the check time (1000). -/
def licC1 : License :=
  { key := "TS-DDDDDDDDDDDDDDDD", created_at := 0, expires_at := some 50,
    device_id := none, device_info := none, activated_at := none,
    status := "active", last_check := none, heartbeat_last := none }

/-- The signature of the C1 witness requests. -/
def sigC1 : String :=
  make_signature [("key", jstr "TS-DDDDDDDDDDDDDDDD"), ("device_id", jstr "D")]

/-- Witness for C1 at a concrete input. -/
theorem C1_witness :
    jget (check_license 1000 [licC1]
        (creq "TS-DDDDDDDDDDDDDDDD" (jstr "D") 1000 sigC1)).1.body "valid" =
      some (jbool false) ∧
    (check_license 1000 [licC1]
        (creq "TS-DDDDDDDDDDDDDDDD" (jstr "D") 1000 sigC1)).2.find?
        (fun r => sqlEqKey r.key (some (jstr "TS-DDDDDDDDDDDDDDDD"))) =
      some { licC1 with status := "blocked" } ∧
    check_license 1200 (check_license 1000 [licC1]
        (creq "TS-DDDDDDDDDDDDDDDD" (jstr "D") 1000 sigC1)).2
        (creq "TS-DDDDDDDDDDDDDDDD" (jstr "D") 1200 sigC1) =
      (respB "valid" false "Ключ заблокирован" 200,
       (check_license 1000 [licC1]
         (creq "TS-DDDDDDDDDDDDDDDD" (jstr "D") 1000 sigC1)).2) :=
  C1_check_expiry_latch 1000 1200 1000 1200 [licC1] "TS-DDDDDDDDDDDDDDDD"
    (jstr "D") (jstr "D") sigC1 sigC1 licC1 50 (by decide) (by decide)
    (verify_signature_make _ _ rfl) rfl rfl (by decide) (by decide)
    (verify_signature_make _ _ rfl)

/-! ## Claim C5 -/

theorem getTs_creq (k : String) (dev : JVal) (ts : Int) (sig : String) :
    getTs (jremove (creq k dev ts sig) "signature") = some ts := rfl

theorem sig_creq (k : String) (dev : JVal) (ts : Int) (sig : String) :
    (jget (creq k dev ts sig) "signature").getD (jstr "") = jstr sig := rfl

/-- Stale-timestamp rejection of `check_license` (lines 1442-1443). -/
theorem check_license_stale (now ts : Int) (db : List License)
    (data : List (String × JVal)) (hne : data.isEmpty = false)
    (hts : getTs (jremove data "signature") = some ts)
    (hstale : check_timestamp now ts = false) :
    check_license now db data =
      (respB "valid" false "Устаревший запрос" 403, db) := by
  simp [check_license, hne, hts, hstale]

/-- Bad-signature rejection of `check_license` (lines 1445-1446). -/
theorem check_license_badsig (now ts : Int) (db : List License)
    (data : List (String × JVal)) (hne : data.isEmpty = false)
    (hts : getTs (jremove data "signature") = some ts)
    (hfresh : check_timestamp now ts = true)
    (hbad : verify_signature (jremove data "signature")
      ((jget data "signature").getD (jstr "")) = false) :
    check_license now db data =
      (respB "valid" false "Неверная подпись" 403, db) := by
  simp [check_license, hne, hts, hfresh, hbad]

/-- Stale-timestamp rejection of `activate_license` (lines 1530-1531). -/
theorem activate_license_stale (now ts : Int) (db : List License)
    (data : List (String × JVal)) (hne : data.isEmpty = false)
    (hts : getTs (jremove data "signature") = some ts)
    (hstale : check_timestamp now ts = false) :
    activate_license now db data =
      (respB "success" false "Устаревший запрос" 403, db) := by
  simp [activate_license, hne, hts, hstale]

/-- Bad-signature rejection of `activate_license` (lines 1533-1534). -/
theorem activate_license_badsig (now ts : Int) (db : List License)
    (data : List (String × JVal)) (hne : data.isEmpty = false)
    (hts : getTs (jremove data "signature") = some ts)
    (hfresh : check_timestamp now ts = true)
    (hbad : verify_signature (jremove data "signature")
      ((jget data "signature").getD (jstr "")) = false) :
    activate_license now db data =
      (respB "success" false "Неверная подпись" 403, db) := by
  simp [activate_license, hne, hts, hfresh, hbad]

/-- Stale-timestamp rejection of `deactivate_license` (lines 1611-1612). -/
theorem deactivate_license_stale (now ts : Int) (db : List License)
    (data : List (String × JVal)) (hne : data.isEmpty = false)
    (hts : getTs (jremove data "signature") = some ts)
    (hstale : check_timestamp now ts = false) :
    deactivate_license now db data =
      (respB "success" false "Устаревший запрос" 403, db) := by
  simp [deactivate_license, hne, hts, hstale]

/-- Bad-signature rejection of `deactivate_license` (lines 1614-1615). -/
theorem deactivate_license_badsig (now ts : Int) (db : List License)
    (data : List (String × JVal)) (hne : data.isEmpty = false)
    (hts : getTs (jremove data "signature") = some ts)
    (hfresh : check_timestamp now ts = true)
    (hbad : verify_signature (jremove data "signature")
      ((jget data "signature").getD (jstr "")) = false) :
    deactivate_license now db data =
      (respB "success" false "Неверная подпись" 403, db) := by
  simp [deactivate_license, hne, hts, hfresh, hbad]

/-- Stale-timestamp rejection of `heartbeat` (lines 1666-1667). -/
theorem heartbeat_stale (now ts : Int) (db : List License)
    (data : List (String × JVal))
    (hts : getTs (jremove data "signature") = some ts)
    (hstale : check_timestamp now ts = false) :
    heartbeat now db data =
      (respB "success" false "Устаревший запрос" 403, db) := by
  simp [heartbeat, hts, hstale]

/-- Bad-signature rejection of `heartbeat` (lines 1669-1670). -/
theorem heartbeat_badsig (now ts : Int) (db : List License)
    (data : List (String × JVal))
    (hts : getTs (jremove data "signature") = some ts)
    (hfresh : check_timestamp now ts = true)
    (hbad : verify_signature (jremove data "signature")
      ((jget data "signature").getD (jstr "")) = false) :
    heartbeat now db data =
      (respB "success" false "Неверная подпись" 403, db) := by
  simp [heartbeat, hts, hfresh, hbad]

/-- **C5** (corrected — counterexample `C5_counterexample`): the claim that
the two authentication failures produce the *same* response is false; what
holds is that on every one of the four operations a stale timestamp and an
invalid signature produce responses of the same shape (HTTP 403, a body with
the boolean flag `false` and a `message` field) but with *different* message
strings ("Устаревший запрос" vs "Неверная подпись"), so the caller can tell
which check failed.  (The timestamp is checked first, so the stale response
applies whether or not the signature is also valid.) -/
theorem C5_auth_failures_same_shape_different_message
    (now ts : Int) (db : List License) (data : List (String × JVal))
    (hne : data.isEmpty = false)
    (hts : getTs (jremove data "signature") = some ts) :
    (check_timestamp now ts = false →
      check_license now db data =
        (respB "valid" false "Устаревший запрос" 403, db) ∧
      activate_license now db data =
        (respB "success" false "Устаревший запрос" 403, db) ∧
      deactivate_license now db data =
        (respB "success" false "Устаревший запрос" 403, db) ∧
      heartbeat now db data =
        (respB "success" false "Устаревший запрос" 403, db)) ∧
    (check_timestamp now ts = true →
      verify_signature (jremove data "signature")
        ((jget data "signature").getD (jstr "")) = false →
      check_license now db data =
        (respB "valid" false "Неверная подпись" 403, db) ∧
      activate_license now db data =
        (respB "success" false "Неверная подпись" 403, db) ∧
      deactivate_license now db data =
        (respB "success" false "Неверная подпись" 403, db) ∧
      heartbeat now db data =
        (respB "success" false "Неверная подпись" 403, db)) ∧
    (∀ flag : String,
      (respB flag false "Устаревший запрос" 403).code =
        (respB flag false "Неверная подпись" 403).code ∧
      (respB flag false "Устаревший запрос" 403).body.map Prod.fst =
        (respB flag false "Неверная подпись" 403).body.map Prod.fst ∧
      respB flag false "Устаревший запрос" 403 ≠
        respB flag false "Неверная подпись" 403) := by
  refine ⟨fun hstale => ⟨check_license_stale now ts db data hne hts hstale,
      activate_license_stale now ts db data hne hts hstale,
      deactivate_license_stale now ts db data hne hts hstale,
      heartbeat_stale now ts db data hts hstale⟩,
    fun hfresh hbad => ⟨check_license_badsig now ts db data hne hts hfresh hbad,
      activate_license_badsig now ts db data hne hts hfresh hbad,
      deactivate_license_badsig now ts db data hne hts hfresh hbad,
      heartbeat_badsig now ts db data hts hfresh hbad⟩,
    fun flag => ⟨rfl, rfl, ?_⟩⟩
  intro h
  have hb := congrArg Resp.body h
  simp [respB] at hb

/-- Counterexample to C5 as stated: two concrete check requests, one stale
and one fresh-but-unsigned, both rejected with 403, but with observably
different responses. -/
theorem C5_counterexample :
    (check_license 1000 [] (creq "TS-A" (jstr "D") 0 "x")).1.code = 403 ∧
    (check_license 1000 [] (creq "TS-A" (jstr "D") 1000 "")).1.code = 403 ∧
    (check_license 1000 [] (creq "TS-A" (jstr "D") 0 "x")).1 ≠
      (check_license 1000 [] (creq "TS-A" (jstr "D") 1000 "")).1 := by
  have h1 := check_license_stale 1000 0 [] (creq "TS-A" (jstr "D") 0 "x")
    rfl (getTs_creq _ _ _ _) (by decide)
  have hbad : verify_signature
      (jremove (creq "TS-A" (jstr "D") 1000 "") "signature") (jstr "") =
      false := verify_signature_ne_len _ "" (by decide)
  have h2 := check_license_badsig 1000 1000 [] (creq "TS-A" (jstr "D") 1000 "")
    rfl (getTs_creq _ _ _ _) (by decide) hbad
  rw [h1, h2]
  refine ⟨rfl, rfl, by decide⟩

/-- Witness for the amended C5 at a concrete input. -/
theorem C5_witness :
    (check_timestamp 1000 0 = false →
      check_license 1000 [] (creq "TS-W" (jstr "D") 0 "x") =
        (respB "valid" false "Устаревший запрос" 403, []) ∧
      activate_license 1000 [] (creq "TS-W" (jstr "D") 0 "x") =
        (respB "success" false "Устаревший запрос" 403, []) ∧
      deactivate_license 1000 [] (creq "TS-W" (jstr "D") 0 "x") =
        (respB "success" false "Устаревший запрос" 403, []) ∧
      heartbeat 1000 [] (creq "TS-W" (jstr "D") 0 "x") =
        (respB "success" false "Устаревший запрос" 403, [])) ∧
    (check_timestamp 1000 0 = true →
      verify_signature (jremove (creq "TS-W" (jstr "D") 0 "x") "signature")
        ((jget (creq "TS-W" (jstr "D") 0 "x") "signature").getD (jstr "")) =
        false →
      check_license 1000 [] (creq "TS-W" (jstr "D") 0 "x") =
        (respB "valid" false "Неверная подпись" 403, []) ∧
      activate_license 1000 [] (creq "TS-W" (jstr "D") 0 "x") =
        (respB "success" false "Неверная подпись" 403, []) ∧
      deactivate_license 1000 [] (creq "TS-W" (jstr "D") 0 "x") =
        (respB "success" false "Неверная подпись" 403, []) ∧
      heartbeat 1000 [] (creq "TS-W" (jstr "D") 0 "x") =
        (respB "success" false "Неверная подпись" 403, [])) ∧
    (∀ flag : String,
      (respB flag false "Устаревший запрос" 403).code =
        (respB flag false "Неверная подпись" 403).code ∧
      (respB flag false "Устаревший запрос" 403).body.map Prod.fst =
        (respB flag false "Неверная подпись" 403).body.map Prod.fst ∧
      respB flag false "Устаревший запрос" 403 ≠
        respB flag false "Неверная подпись" 403) :=
  C5_auth_failures_same_shape_different_message 1000 0 []
    (creq "TS-W" (jstr "D") 0 "x") rfl (getTs_creq _ _ _ _)

/-! ## Claim C4 -/

/-- `activateCore` when every guard passes: success, and the binding fields
plus `status = 'active'` are written (lines 1577-1594). -/
theorem activateCore_success (now : Int) (db : List License) (k : String)
    (dev dinfo : JVal) (ts : Int) (lic : License)
    (hk : k ≠ "")
    (hfound : db.find? (fun r => sqlEqKey r.key (some (jstr k))) = some lic)
    (hnb : ¬(lic.status = "blocked"))
    (hnexp : expiredNow now lic = false)
    (hnmis : devMismatch lic (some dev) = false) :
    activateCore now db [("key", jstr k), ("device_id", dev),
        ("device_info", dinfo), ("timestamp", jint ts)] =
      (respB "success" true "Ключ активирован" 200,
       activateApply now (some (jstr k)) (some dev) (some dinfo) db) := by
  simp only [activateCore, jget, List.find?, jtruthyO, jtruthy]
  norm_num
  rw [hfound]
  simp [hnb, hk, hnexp, hnmis]

/-- `activateCore` on a row bound to a different device: rejected with no
state change (lines 1572-1575). -/
theorem activateCore_mismatch (now : Int) (db : List License) (k : String)
    (dev dinfo : JVal) (ts : Int) (lic : License)
    (hk : k ≠ "")
    (hfound : db.find? (fun r => sqlEqKey r.key (some (jstr k))) = some lic)
    (hnb : ¬(lic.status = "blocked"))
    (hnexp : expiredNow now lic = false)
    (hmis : devMismatch lic (some dev) = true) :
    activateCore now db [("key", jstr k), ("device_id", dev),
        ("device_info", dinfo), ("timestamp", jint ts)] =
      (respB "success" false "Ключ уже привязан к другому устройству" 200,
       db) := by
  simp only [activateCore, jget, List.find?, jtruthyO, jtruthy]
  norm_num
  rw [hfound]
  simp [hnb, hk, hnexp, hmis]

/-- **C4** (corrected — counterexample `C4_counterexample`): activating an
unbound, unexpired, active license with `D1` succeeds and binds it;
re-activating with `D1` succeeds again and keeps `device_id = D1`, but —
contrary to the claim as stated — *overwrites* `device_info` with the second
request's payload and *refreshes* `activated_at` to the time of the second
call; a subsequent activate with `D2 ≠ D1` fails with the device-mismatch
outcome and leaves the whole table unchanged. -/
theorem C4_activate_rebind_refreshes_timestamp
    (now1 now2 now3 ts1 ts2 ts3 : Int) (db : List License)
    (k d1 d2 : String) (info1 info2 info3 : JVal)
    (sig1 sig2 sig3 : String) (lic : License)
    (hk : k ≠ "") (hd1 : d1 ≠ "") (hdne : d2 ≠ d1)
    (hfresh1 : check_timestamp now1 ts1 = true)
    (hsig1 : verify_signature
      (jremove (careq k (jstr d1) info1 ts1 sig1) "signature")
      (jstr sig1) = true)
    (hfresh2 : check_timestamp now2 ts2 = true)
    (hsig2 : verify_signature
      (jremove (careq k (jstr d1) info2 ts2 sig2) "signature")
      (jstr sig2) = true)
    (hfresh3 : check_timestamp now3 ts3 = true)
    (hsig3 : verify_signature
      (jremove (careq k (jstr d2) info3 ts3 sig3) "signature")
      (jstr sig3) = true)
    (hfound : db.find? (fun r => sqlEqKey r.key (some (jstr k))) = some lic)
    (hstatus : lic.status = "active")
    (hexp : lic.expires_at = none)
    (hunbound : lic.device_id = none) :
    activate_license now1 db (careq k (jstr d1) info1 ts1 sig1) =
      (respB "success" true "Ключ активирован" 200,
       activateApply now1 (some (jstr k)) (some (jstr d1)) (some info1) db) ∧
    (activateApply now1 (some (jstr k)) (some (jstr d1)) (some info1)
        db).find? (fun r => sqlEqKey r.key (some (jstr k))) =
      some { lic with device_id := some d1,
                      device_info := some (storeInfo (some info1)),
                      activated_at := some now1, status := "active" } ∧
    activate_license now2
        (activateApply now1 (some (jstr k)) (some (jstr d1)) (some info1) db)
        (careq k (jstr d1) info2 ts2 sig2) =
      (respB "success" true "Ключ активирован" 200,
       activateApply now2 (some (jstr k)) (some (jstr d1)) (some info2)
         (activateApply now1 (some (jstr k)) (some (jstr d1)) (some info1)
           db)) ∧
    (activateApply now2 (some (jstr k)) (some (jstr d1)) (some info2)
        (activateApply now1 (some (jstr k)) (some (jstr d1)) (some info1)
          db)).find? (fun r => sqlEqKey r.key (some (jstr k))) =
      some { lic with device_id := some d1,
                      device_info := some (storeInfo (some info2)),
                      activated_at := some now2, status := "active" } ∧
    activate_license now3
        (activateApply now2 (some (jstr k)) (some (jstr d1)) (some info2)
          (activateApply now1 (some (jstr k)) (some (jstr d1)) (some info1)
            db))
        (careq k (jstr d2) info3 ts3 sig3) =
      (respB "success" false "Ключ уже привязан к другому устройству" 200,
       activateApply now2 (some (jstr k)) (some (jstr d1)) (some info2)
         (activateApply now1 (some (jstr k)) (some (jstr d1)) (some info1)
           db)) := by
  have hne' : ¬(d1 = d2) := fun h => hdne h.symm
  have e1 : activate_license now1 db (careq k (jstr d1) info1 ts1 sig1) =
      (respB "success" true "Ключ активирован" 200,
       activateApply now1 (some (jstr k)) (some (jstr d1)) (some info1) db) := by
    rw [activate_license_auth now1 db (careq k (jstr d1) info1 ts1 sig1) ts1 rfl rfl
      hfresh1 hsig1, careq_body]
    exact activateCore_success now1 db k (jstr d1) info1 ts1 lic hk hfound
      (by simp [hstatus]) (by simp [expiredNow, hexp])
      (by simp [devMismatch, hunbound])
  have hfound1 : (activateApply now1 (some (jstr k)) (some (jstr d1))
      (some info1) db).find? (fun r => sqlEqKey r.key (some (jstr k))) =
      some { lic with device_id := some d1,
                      device_info := some (storeInfo (some info1)),
                      activated_at := some now1, status := "active" } :=
    find?_updateWhere_pos _ _ db lic (fun r => rfl) hfound
  have e2 : activate_license now2
      (activateApply now1 (some (jstr k)) (some (jstr d1)) (some info1) db)
      (careq k (jstr d1) info2 ts2 sig2) =
      (respB "success" true "Ключ активирован" 200,
       activateApply now2 (some (jstr k)) (some (jstr d1)) (some info2)
         (activateApply now1 (some (jstr k)) (some (jstr d1)) (some info1)
           db)) := by
    rw [activate_license_auth now2 _ (careq k (jstr d1) info2 ts2 sig2) ts2 rfl rfl
      hfresh2 hsig2, careq_body]
    exact activateCore_success now2 _ k (jstr d1) info2 ts2 _ hk hfound1
      (by simp) (by simp [expiredNow, hexp]) (by simp [devMismatch, pyEqDev])
  have hfound2 : (activateApply now2 (some (jstr k)) (some (jstr d1))
      (some info2) (activateApply now1 (some (jstr k)) (some (jstr d1))
        (some info1) db)).find?
      (fun r => sqlEqKey r.key (some (jstr k))) =
      some { lic with device_id := some d1,
                      device_info := some (storeInfo (some info2)),
                      activated_at := some now2, status := "active" } :=
    find?_updateWhere_pos _ _ _
      { lic with device_id := some d1,
                 device_info := some (storeInfo (some info1)),
                 activated_at := some now1, status := "active" }
      (fun r => rfl) hfound1
  have e3 : activate_license now3
      (activateApply now2 (some (jstr k)) (some (jstr d1)) (some info2)
        (activateApply now1 (some (jstr k)) (some (jstr d1)) (some info1)
          db))
      (careq k (jstr d2) info3 ts3 sig3) =
      (respB "success" false "Ключ уже привязан к другому устройству" 200,
       activateApply now2 (some (jstr k)) (some (jstr d1)) (some info2)
         (activateApply now1 (some (jstr k)) (some (jstr d1)) (some info1)
           db)) := by
    rw [activate_license_auth now3 _ (careq k (jstr d2) info3 ts3 sig3) ts3 rfl rfl
      hfresh3 hsig3, careq_body]
    exact activateCore_mismatch now3 _ k (jstr d2) info3 ts3 _ hk hfound2
      (by simp) (by simp [expiredNow, hexp])
      (by simp [devMismatch, pyEqDev, hd1, hne'])
  exact ⟨e1, hfound1, e2, hfound2, e3⟩

/-- A concrete unbound active license for C4. -/
def licC4 : License :=
  { key := "TS-EEEEEEEEEEEEEEEE", created_at := 0, expires_at := none,
    device_id := none, device_info := none, activated_at := none,
    status := "active", last_check := none, heartbeat_last := none }

/-- The signed material of the C4 requests from device `D1`. -/
def sigBaseC4 : List (String × JVal) :=
  [("key", jstr "TS-EEEEEEEEEEEEEEEE"), ("device_id", jstr "D1"),
   ("device_info", jnull)]

/-- The signature of the C4 requests from `D1` (identical for both calls:
`timestamp` is excluded from the signed material). -/
def sigC4 : String := make_signature sigBaseC4

/-- Counterexample to C4 as stated: both activations by `D1` succeed, but the
binding after the second call is *not* identical to the binding after the
first — `activated_at` is refreshed from 100 to 200. -/
theorem C4_counterexample :
    (activate_license 100 [licC4]
        (careq "TS-EEEEEEEEEEEEEEEE" (jstr "D1") jnull 100 sigC4)).1 =
      respB "success" true "Ключ активирован" 200 ∧
    (activate_license 200
        (activate_license 100 [licC4]
          (careq "TS-EEEEEEEEEEEEEEEE" (jstr "D1") jnull 100 sigC4)).2
        (careq "TS-EEEEEEEEEEEEEEEE" (jstr "D1") jnull 200 sigC4)).1 =
      respB "success" true "Ключ активирован" 200 ∧
    (((activate_license 100 [licC4]
        (careq "TS-EEEEEEEEEEEEEEEE" (jstr "D1") jnull 100 sigC4)).2.find?
        (fun r => sqlEqKey r.key
          (some (jstr "TS-EEEEEEEEEEEEEEEE")))).map License.activated_at =
      some (some 100)) ∧
    (((activate_license 200
        (activate_license 100 [licC4]
          (careq "TS-EEEEEEEEEEEEEEEE" (jstr "D1") jnull 100 sigC4)).2
        (careq "TS-EEEEEEEEEEEEEEEE" (jstr "D1") jnull 200 sigC4)).2.find?
        (fun r => sqlEqKey r.key
          (some (jstr "TS-EEEEEEEEEEEEEEEE")))).map License.activated_at =
      some (some 200)) ∧
    ((activate_license 200
        (activate_license 100 [licC4]
          (careq "TS-EEEEEEEEEEEEEEEE" (jstr "D1") jnull 100 sigC4)).2
        (careq "TS-EEEEEEEEEEEEEEEE" (jstr "D1") jnull 200 sigC4)).2.find?
        (fun r => sqlEqKey r.key
          (some (jstr "TS-EEEEEEEEEEEEEEEE")))).map License.activated_at ≠
      ((activate_license 100 [licC4]
        (careq "TS-EEEEEEEEEEEEEEEE" (jstr "D1") jnull 100 sigC4)).2.find?
        (fun r => sqlEqKey r.key
          (some (jstr "TS-EEEEEEEEEEEEEEEE")))).map License.activated_at := by
  have e1 : activate_license 100 [licC4]
      (careq "TS-EEEEEEEEEEEEEEEE" (jstr "D1") jnull 100 sigC4) =
      (respB "success" true "Ключ активирован" 200,
       activateApply 100 (some (jstr "TS-EEEEEEEEEEEEEEEE"))
         (some (jstr "D1")) (some jnull) [licC4]) := by
    rw [activate_license_auth 100 [licC4]
      (careq "TS-EEEEEEEEEEEEEEEE" (jstr "D1") jnull 100 sigC4) 100 rfl rfl
      (by decide) (verify_signature_make _ sigBaseC4 rfl), careq_body]
    exact activateCore_success 100 [licC4] "TS-EEEEEEEEEEEEEEEE" (jstr "D1")
      jnull 100 licC4 (by decide) rfl (by decide) (by decide) (by decide)
  have e2 : activate_license 200
      (activateApply 100 (some (jstr "TS-EEEEEEEEEEEEEEEE"))
        (some (jstr "D1")) (some jnull) [licC4])
      (careq "TS-EEEEEEEEEEEEEEEE" (jstr "D1") jnull 200 sigC4) =
      (respB "success" true "Ключ активирован" 200,
       activateApply 200 (some (jstr "TS-EEEEEEEEEEEEEEEE"))
         (some (jstr "D1")) (some jnull)
         (activateApply 100 (some (jstr "TS-EEEEEEEEEEEEEEEE"))
           (some (jstr "D1")) (some jnull) [licC4])) := by
    rw [activate_license_auth 200 _
      (careq "TS-EEEEEEEEEEEEEEEE" (jstr "D1") jnull 200 sigC4) 200 rfl rfl
      (by decide) (verify_signature_make _ sigBaseC4 rfl), careq_body]
    exact activateCore_success 200 _ "TS-EEEEEEEEEEEEEEEE" (jstr "D1")
      jnull 200 _ (by decide) rfl (by decide) (by decide) (by decide)
  rw [e1]
  rw [e2]
  refine ⟨rfl, rfl, by decide, by decide, by decide⟩

/-- The signed material of the C4 witness request from device `D2`. -/
def sigBaseC4b : List (String × JVal) :=
  [("key", jstr "TS-EEEEEEEEEEEEEEEE"), ("device_id", jstr "D2"),
   ("device_info", jnull)]

/-- The signature of the C4 witness request from `D2`. -/
def sigC4b : String := make_signature sigBaseC4b

/-- Witness for the amended C4 at a concrete input (first call of the
three-call scenario). -/
theorem C4_witness :
    activate_license 100 [licC4]
        (careq "TS-EEEEEEEEEEEEEEEE" (jstr "D1") jnull 100 sigC4) =
      (respB "success" true "Ключ активирован" 200,
       activateApply 100 (some (jstr "TS-EEEEEEEEEEEEEEEE"))
         (some (jstr "D1")) (some jnull) [licC4]) :=
  (C4_activate_rebind_refreshes_timestamp 100 200 300 100 200 300 [licC4]
    "TS-EEEEEEEEEEEEEEEE" "D1" "D2" jnull jnull jnull sigC4 sigC4 sigC4b licC4
    (by decide) (by decide) (by decide)
    (by decide) (verify_signature_make _ sigBaseC4 rfl)
    (by decide) (verify_signature_make _ sigBaseC4 rfl)
    (by decide) (verify_signature_make _ sigBaseC4b rfl)
    rfl rfl rfl rfl).1

/-! ## Claim C3 -/

/-- `activateCore` on a found, not-blocked row whose expiry has passed:
rejected, and the stored status is (re)set to `expired` — note the divergence
from the `check` path, which sets `blocked` (lines 1563-1570). -/
theorem activateCore_found_expired (now : Int) (db : List License)
    (k : String) (dev dinfo : JVal) (ts : Int) (lic : License) (t : Int)
    (hk : k ≠ "")
    (hfound : db.find? (fun r => sqlEqKey r.key (some (jstr k))) = some lic)
    (hnb : ¬(lic.status = "blocked"))
    (hexp : lic.expires_at = some t) (hlt : t < now) :
    activateCore now db [("key", jstr k), ("device_id", dev),
        ("device_info", dinfo), ("timestamp", jint ts)] =
      (respB "success" false "Лицензия истекла" 200,
       updateWhere (fun r => sqlEqKey r.key (some (jstr k)))
         (fun r => { r with status := "expired" }) db) := by
  simp only [activateCore, jget, List.find?, jtruthyO, jtruthy]
  norm_num
  rw [hfound]
  simp [hnb, hk, expiredNow, hexp, hlt]

/-- `deactivateCore` when the device guard does not fire: success, status set
to `blocked` (lines 1639-1652); the stored status is never consulted. -/
theorem deactivateCore_nomismatch (now : Int) (db : List License)
    (k : String) (dev : JVal) (ts : Int) (lic : License)
    (hk : k ≠ "")
    (hfound : db.find? (fun r => sqlEqKey r.key (some (jstr k))) = some lic)
    (hnm : devMismatch lic (some dev) = false) :
    deactivateCore now db
        [("key", jstr k), ("device_id", dev), ("timestamp", jint ts)] =
      (respB "success" true "Ключ заблокирован" 200,
       updateWhere (fun r => sqlEqKey r.key (some (jstr k)))
         (fun r => { r with status := "blocked" }) db) := by
  simp only [deactivateCore, jget, List.find?, jtruthyO, jtruthy]
  norm_num
  rw [hfound]
  simp [hk, hnm]

/-- **C3** (corrected — counterexample `C3_counterexample`): a license with
stored status `expired` (reachable only with a past expiry) is rejected by
check — which moreover moves it to `blocked` — and by activate — which
re-marks it `expired` — but deactivate and heartbeat never consult the
status: an authenticated deactivate succeeds (setting `blocked`) whenever the
license is unbound or the device matches, and an authenticated heartbeat
always reports success; `expired` is not terminal for those two operations. -/
theorem C3_expired_only_blocks_check_activate
    (now1 now2 now3 now4 ts1 ts2 ts3 ts4 : Int) (db : List License)
    (k : String) (dev1 dev2 dev3 dev4 dinfo : JVal)
    (sig1 sig2 sig3 sig4 : String) (lic : License) (t : Int)
    (hk : k ≠ "")
    (hstatus : lic.status = "expired")
    (hexp : lic.expires_at = some t)
    (hfound : db.find? (fun r => sqlEqKey r.key (some (jstr k))) = some lic)
    (hfresh1 : check_timestamp now1 ts1 = true)
    (hsig1 : verify_signature (jremove (creq k dev1 ts1 sig1) "signature")
      (jstr sig1) = true)
    (hfresh2 : check_timestamp now2 ts2 = true)
    (hsig2 : verify_signature
      (jremove (careq k dev2 dinfo ts2 sig2) "signature") (jstr sig2) = true)
    (hfresh3 : check_timestamp now3 ts3 = true)
    (hsig3 : verify_signature (jremove (creq k dev3 ts3 sig3) "signature")
      (jstr sig3) = true)
    (hfresh4 : check_timestamp now4 ts4 = true)
    (hsig4 : verify_signature (jremove (creq k dev4 ts4 sig4) "signature")
      (jstr sig4) = true) :
    (t < now1 →
      check_license now1 db (creq k dev1 ts1 sig1) =
        (respB "valid" false "Лицензия истекла и заблокирована" 200,
         updateWhere (fun r => sqlEqKey r.key (some (jstr k)))
           (fun r => { r with status := "blocked" }) db)) ∧
    (t < now2 →
      activate_license now2 db (careq k dev2 dinfo ts2 sig2) =
        (respB "success" false "Лицензия истекла" 200,
         updateWhere (fun r => sqlEqKey r.key (some (jstr k)))
           (fun r => { r with status := "expired" }) db)) ∧
    (devMismatch lic (some dev3) = false →
      deactivate_license now3 db (creq k dev3 ts3 sig3) =
        (respB "success" true "Ключ заблокирован" 200,
         updateWhere (fun r => sqlEqKey r.key (some (jstr k)))
           (fun r => { r with status := "blocked" }) db)) ∧
    (heartbeat now4 db (creq k dev4 ts4 sig4)).1 =
      ⟨[("success", jbool true)], 200⟩ := by
  have hnb : ¬(lic.status = "blocked") := by simp [hstatus]
  refine ⟨fun hlt => ?_, fun hlt => ?_, fun hnm => ?_, ?_⟩
  · rw [check_license_auth now1 db (creq k dev1 ts1 sig1) ts1 rfl rfl hfresh1
      hsig1, creq_body]
    exact checkCore_found_expired now1 db k dev1 ts1 lic t hk hfound hnb
      hexp hlt
  · rw [activate_license_auth now2 db (careq k dev2 dinfo ts2 sig2) ts2 rfl
      rfl hfresh2 hsig2, careq_body]
    exact activateCore_found_expired now2 db k dev2 dinfo ts2 lic t hk hfound
      hnb hexp hlt
  · rw [deactivate_license_auth now3 db (creq k dev3 ts3 sig3) ts3 rfl rfl
      hfresh3 hsig3, creq_body]
    exact deactivateCore_nomismatch now3 db k dev3 ts3 lic hk hfound hnm
  · rw [heartbeat_auth now4 db (creq k dev4 ts4 sig4) ts4 rfl hfresh4 hsig4]
    rfl

/-- A concrete expired, bound license for C3. -/
def licC3 : License :=
  { key := "TS-FFFFFFFFFFFFFFFF", created_at := 0, expires_at := some 50,
    device_id := some "D", device_info := some "{}", activated_at := some 10,
    status := "expired", last_check := none, heartbeat_last := none }

/-- The signature of the C3 check/deactivate/heartbeat requests. -/
def sigC3 : String :=
  make_signature [("key", jstr "TS-FFFFFFFFFFFFFFFF"), ("device_id", jstr "D")]

/-- The signature of the C3 activate request (its signed material also has
`device_info`). -/
def sigC3b : String :=
  make_signature [("key", jstr "TS-FFFFFFFFFFFFFFFF"), ("device_id", jstr "D"),
    ("device_info", jnull)]

/-- Counterexample to C3 as stated: an authenticated deactivate of a license
whose stored status is `expired` (bound to `D`, called with `D`) returns
`success:true` and performs its success-path state change (status becomes
`blocked`) — the operation does not fail on expired licenses. -/
theorem C3_counterexample :
    (deactivate_license 1000 [licC3]
        (creq "TS-FFFFFFFFFFFFFFFF" (jstr "D") 1000 sigC3)).1 =
      respB "success" true "Ключ заблокирован" 200 ∧
    ((deactivate_license 1000 [licC3]
        (creq "TS-FFFFFFFFFFFFFFFF" (jstr "D") 1000 sigC3)).2.find?
        (fun r => sqlEqKey r.key
          (some (jstr "TS-FFFFFFFFFFFFFFFF")))).map License.status =
      some "blocked" := by
  rw [deactivate_license_auth 1000 [licC3]
    (creq "TS-FFFFFFFFFFFFFFFF" (jstr "D") 1000 sigC3) 1000 rfl rfl
    (by decide) (verify_signature_make _
      [("key", jstr "TS-FFFFFFFFFFFFFFFF"), ("device_id", jstr "D")] rfl),
    creq_body]
  rw [deactivateCore_nomismatch 1000 [licC3] "TS-FFFFFFFFFFFFFFFF" (jstr "D")
    1000 licC3 (by decide) rfl (by decide)]
  exact ⟨rfl, by decide⟩

/-- Witness for the amended C3 at a concrete input (the deactivate conjunct,
exercised on the expired bound license). -/
theorem C3_witness :
    deactivate_license 1000 [licC3]
        (creq "TS-FFFFFFFFFFFFFFFF" (jstr "D") 1000 sigC3) =
      (respB "success" true "Ключ заблокирован" 200,
       updateWhere (fun r => sqlEqKey r.key
           (some (jstr "TS-FFFFFFFFFFFFFFFF")))
         (fun r => { r with status := "blocked" }) [licC3]) :=
  (C3_expired_only_blocks_check_activate 1000 1000 1000 1000 1000 1000 1000
    1000 [licC3] "TS-FFFFFFFFFFFFFFFF" (jstr "D") (jstr "D") (jstr "D")
    (jstr "D") jnull sigC3 sigC3b sigC3 sigC3 licC3 50 (by decide) rfl rfl rfl
    (by decide) (verify_signature_make _
      [("key", jstr "TS-FFFFFFFFFFFFFFFF"), ("device_id", jstr "D")] rfl)
    (by decide) (verify_signature_make _
      [("key", jstr "TS-FFFFFFFFFFFFFFFF"), ("device_id", jstr "D"),
       ("device_info", jnull)] rfl)
    (by decide) (verify_signature_make _
      [("key", jstr "TS-FFFFFFFFFFFFFFFF"), ("device_id", jstr "D")] rfl)
    (by decide) (verify_signature_make _
      [("key", jstr "TS-FFFFFFFFFFFFFFFF"), ("device_id", jstr "D")] rfl)
    ).2.2.1 (by decide)

/-! ## Claim C8 -/

/-- The all-or-nothing coupling of the binding columns (spec §3): either all
of `device_id` / `device_info` / `activated_at` are present, or none is. -/
def allOrNothing (r : License) : Prop :=
  (r.device_id ≠ none ∧ r.device_info ≠ none ∧ r.activated_at ≠ none) ∨
  (r.device_id = none ∧ r.device_info = none ∧ r.activated_at = none)

/-- Pointwise preservation of a predicate through a guarded update. -/
theorem updateWhere_preserves (P : License → Prop) (p : License → Bool)
    (f : License → License) (db : List License)
    (hf : ∀ r, P r → P (f r)) (h : ∀ r ∈ db, P r) :
    ∀ r ∈ updateWhere p f db, P r := by
  intro r hr
  rcases List.mem_map.mp hr with ⟨s, hs, hsr⟩
  by_cases hp : p s = true
  · rw [if_pos hp] at hsr
    exact hsr ▸ hf s (h s hs)
  · rw [if_neg hp] at hsr
    exact hsr ▸ h s hs

/-- Every table `check_license` can leave behind: unchanged, a status latch,
or a `last_check` touch. -/
theorem check_license_snd (now : Int) (db : List License)
    (data : List (String × JVal)) :
    (check_license now db data).2 = db ∨
    (∃ kv, (check_license now db data).2 =
      updateWhere (fun r => sqlEqKey r.key kv)
        (fun r => { r with status := "blocked" }) db) ∨
    (∃ kv, (check_license now db data).2 =
      updateWhere (fun r => sqlEqKey r.key kv)
        (fun r => { r with last_check := some now }) db) := by
  unfold check_license checkCore
  by_cases h0 : data.isEmpty = true
  · simp [h0]
  rw [Bool.not_eq_true] at h0
  rcases hts : getTs (jremove data "signature") with _ | ts <;>
    simp only [h0, hts, Bool.false_eq_true, if_false]
  · simp
  by_cases hfr : check_timestamp now ts <;> simp only [hfr]
  case neg => simp
  by_cases hv : verify_signature (jremove data "signature")
      ((jget data "signature").getD (jstr "")) <;> simp only [hv]
  case neg => simp
  by_cases hky : jtruthyO (jget (jremove data "signature") "key") = true <;>
    simp only [hky]
  case neg =>
    rw [Bool.not_eq_true] at hky
    simp [hky]
  rcases hf : db.find? (fun r =>
      sqlEqKey r.key (jget (jremove data "signature") "key")) with _ | lic <;>
    simp only [hf]
  · simp
  by_cases hb : lic.status = "blocked" <;> simp only [hb]
  · simp
  by_cases he : expiredNow now lic = true <;> simp only [he]
  · simp only [if_true]
    exact Or.inr (Or.inl ⟨_, rfl⟩)
  rw [Bool.not_eq_true] at he
  simp only [he, Bool.false_eq_true, if_false]
  by_cases hm : devMismatch lic (jget (jremove data "signature") "device_id") =
      true <;> simp only [hm]
  · simp
  rw [Bool.not_eq_true] at hm
  simp only [hm, Bool.false_eq_true, if_false]
  exact Or.inr (Or.inr ⟨_, rfl⟩)

/-- Every table `activate_license` can leave behind: unchanged, an `expired`
mark, or the binding write. -/
theorem activate_license_snd (now : Int) (db : List License)
    (data : List (String × JVal)) :
    (activate_license now db data).2 = db ∨
    (∃ kv, (activate_license now db data).2 =
      updateWhere (fun r => sqlEqKey r.key kv)
        (fun r => { r with status := "expired" }) db) ∨
    (activate_license now db data).2 =
      activateApply now (jget (jremove data "signature") "key")
        (jget (jremove data "signature") "device_id")
        (jget (jremove data "signature") "device_info") db := by
  unfold activate_license activateCore
  by_cases h0 : data.isEmpty = true
  · simp [h0]
  rw [Bool.not_eq_true] at h0
  rcases hts : getTs (jremove data "signature") with _ | ts <;>
    simp only [h0, hts, Bool.false_eq_true, if_false]
  · simp
  by_cases hfr : check_timestamp now ts <;> simp only [hfr]
  case neg => simp
  by_cases hv : verify_signature (jremove data "signature")
      ((jget data "signature").getD (jstr "")) <;> simp only [hv]
  case neg => simp
  by_cases hky : jtruthyO (jget (jremove data "signature") "key") = true <;>
    simp only [hky]
  case neg =>
    rw [Bool.not_eq_true] at hky
    simp [hky]
  rcases hf : db.find? (fun r =>
      sqlEqKey r.key (jget (jremove data "signature") "key")) with _ | lic <;>
    simp only [hf]
  · simp
  by_cases hb : lic.status = "blocked" <;> simp only [hb]
  · simp
  by_cases he : expiredNow now lic = true <;> simp only [he]
  · simp only [if_true]
    exact Or.inr (Or.inl ⟨_, rfl⟩)
  rw [Bool.not_eq_true] at he
  simp only [he, Bool.false_eq_true, if_false]
  by_cases hm : devMismatch lic (jget (jremove data "signature") "device_id") =
      true <;> simp only [hm]
  · simp
  rw [Bool.not_eq_true] at hm
  simp only [hm, Bool.false_eq_true, if_false]
  exact Or.inr (Or.inr rfl)

/-- Every table `deactivate_license` can leave behind: unchanged or a status
latch. -/
theorem deactivate_license_snd (now : Int) (db : List License)
    (data : List (String × JVal)) :
    (deactivate_license now db data).2 = db ∨
    (∃ kv, (deactivate_license now db data).2 =
      updateWhere (fun r => sqlEqKey r.key kv)
        (fun r => { r with status := "blocked" }) db) := by
  unfold deactivate_license deactivateCore
  by_cases h0 : data.isEmpty = true
  · simp [h0]
  rw [Bool.not_eq_true] at h0
  rcases hts : getTs (jremove data "signature") with _ | ts <;>
    simp only [h0, hts, Bool.false_eq_true, if_false]
  · simp
  by_cases hfr : check_timestamp now ts <;> simp only [hfr]
  case neg => simp
  by_cases hv : verify_signature (jremove data "signature")
      ((jget data "signature").getD (jstr "")) <;> simp only [hv]
  case neg => simp
  by_cases hky : jtruthyO (jget (jremove data "signature") "key") = true <;>
    simp only [hky]
  case neg =>
    rw [Bool.not_eq_true] at hky
    simp [hky]
  rcases hf : db.find? (fun r =>
      sqlEqKey r.key (jget (jremove data "signature") "key")) with _ | lic <;>
    simp only [hf]
  · simp
  by_cases hm : devMismatch lic (jget (jremove data "signature") "device_id") =
      true <;> simp only [hm]
  · simp
  rw [Bool.not_eq_true] at hm
  simp only [hm, Bool.false_eq_true, if_false]
  exact Or.inr ⟨_, rfl⟩

/-- Every table `heartbeat` can leave behind: unchanged or a
`heartbeat_last` touch. -/
theorem heartbeat_snd (now : Int) (db : List License)
    (data : List (String × JVal)) :
    (heartbeat now db data).2 = db ∨
    (∃ kv dv, (heartbeat now db data).2 =
      updateWhere (fun r => sqlEqKey r.key kv && sqlEqDev r.device_id dv)
        (fun r => { r with heartbeat_last := some now }) db) := by
  unfold heartbeat heartbeatCore
  rcases hts : getTs (jremove data "signature") with _ | ts <;>
    simp only [hts]
  · simp
  by_cases hfr : check_timestamp now ts <;> simp only [hfr]
  case neg => simp
  by_cases hv : verify_signature (jremove data "signature")
      ((jget data "signature").getD (jstr "")) <;> simp only [hv]
  case neg => simp
  exact Or.inr ⟨_, _, rfl⟩

/-- **C8** (corrected — counterexample `C8_counterexample`): every operation,
client-facing or administrative, preserves the all-or-nothing coupling of
`device_id` / `device_info` / `activated_at` — *provided* an activate request
carries a string `device_id`.  (An activate request whose `device_id` is
missing or `null` stores NULL into `device_id` while still setting
`device_info` and `activated_at`, breaking the coupling; that is the
counterexample.) -/
theorem C8_all_or_nothing_preserved (now : Int) (days : Option Int)
    (freshKey k2 : String) (db : List License) (data : List (String × JVal))
    (h : ∀ r ∈ db, allOrNothing r) :
    (∀ r ∈ (check_license now db data).2, allOrNothing r) ∧
    ((∃ s, jget (jremove data "signature") "device_id" = some (jstr s)) →
      ∀ r ∈ (activate_license now db data).2, allOrNothing r) ∧
    (∀ r ∈ (deactivate_license now db data).2, allOrNothing r) ∧
    (∀ r ∈ (heartbeat now db data).2, allOrNothing r) ∧
    (∀ r ∈ (api_generate now days freshKey db).2, allOrNothing r) ∧
    (∀ r ∈ (api_block k2 db).2, allOrNothing r) ∧
    (∀ r ∈ (api_unblock k2 db).2, allOrNothing r) ∧
    (∀ r ∈ (api_unbind k2 db).2, allOrNothing r) ∧
    (∀ r ∈ api_delete k2 db, allOrNothing r) := by
  refine ⟨?_, ?_, ?_, ?_, ?_, ?_, ?_, ?_, ?_⟩
  · rcases check_license_snd now db data with hc | ⟨kv, hc⟩ | ⟨kv, hc⟩ <;>
      rw [hc]
    · exact h
    · exact updateWhere_preserves allOrNothing _ _ db (fun r hr => hr) h
    · exact updateWhere_preserves allOrNothing _ _ db (fun r hr => hr) h
  · rintro ⟨s, hs⟩
    rcases activate_license_snd now db data with hc | ⟨kv, hc⟩ | hc <;>
      rw [hc]
    · exact h
    · exact updateWhere_preserves allOrNothing _ _ db (fun r hr => hr) h
    · rw [hs]
      unfold activateApply
      refine updateWhere_preserves allOrNothing _ _ db (fun r hr => ?_) h
      exact Or.inl ⟨by simp [storeDev], by simp, by simp⟩
  · rcases deactivate_license_snd now db data with hc | ⟨kv, hc⟩ <;> rw [hc]
    · exact h
    · exact updateWhere_preserves allOrNothing _ _ db (fun r hr => hr) h
  · rcases heartbeat_snd now db data with hc | ⟨kv, dv, hc⟩ <;> rw [hc]
    · exact h
    · exact updateWhere_preserves allOrNothing _ _ db (fun r hr => hr) h
  · intro r hr
    rcases List.mem_append.mp hr with hr | hr
    · exact h r hr
    · rcases List.mem_singleton.mp hr with rfl
      exact Or.inr ⟨rfl, rfl, rfl⟩
  · exact updateWhere_preserves allOrNothing _ _ db (fun r hr => hr) h
  · exact updateWhere_preserves allOrNothing _ _ db (fun r hr => hr) h
  · refine updateWhere_preserves allOrNothing _ _ db (fun r hr => ?_) h
    exact Or.inr ⟨rfl, rfl, rfl⟩
  · intro r hr
    exact h r (List.mem_of_mem_filter hr)

/-- `activateCore` on a body with no `device_id` field: the guards still pass
on an unbound row, and the write stores NULL into `device_id` while setting
`device_info` and `activated_at` (lines 1577-1588 with `device_id = None`). -/
theorem activateCore_success_nodev (now : Int) (db : List License)
    (k : String) (dinfo : JVal) (ts : Int) (lic : License)
    (hk : k ≠ "")
    (hfound : db.find? (fun r => sqlEqKey r.key (some (jstr k))) = some lic)
    (hnb : ¬(lic.status = "blocked"))
    (hnexp : expiredNow now lic = false)
    (hunbound : lic.device_id = none) :
    activateCore now db
        [("key", jstr k), ("device_info", dinfo), ("timestamp", jint ts)] =
      (respB "success" true "Ключ активирован" 200,
       activateApply now (some (jstr k)) none (some dinfo) db) := by
  simp only [activateCore, jget, List.find?, jtruthyO, jtruthy]
  norm_num
  rw [hfound]
  simp [hnb, hk, hnexp, devMismatch, hunbound]

/-- A concrete unbound active license for C8. -/
def licC8 : License :=
  { key := "TS-GGGGGGGGGGGGGGGG", created_at := 0, expires_at := none,
    device_id := none, device_info := none, activated_at := none,
    status := "active", last_check := none, heartbeat_last := none }

/-- The signature of the C8 request (which carries no `device_id`). -/
def sigC8 : String :=
  make_signature [("key", jstr "TS-GGGGGGGGGGGGGGGG"), ("device_info", jnull)]

/-- Counterexample to C8 as stated: an authenticated activate request without
a `device_id` field succeeds on an unbound active license and leaves a row
with `device_id` NULL but `device_info` and `activated_at` set — the
all-or-nothing invariant does not hold in every reachable state. -/
theorem C8_counterexample :
    (activate_license 100 [licC8]
        (careqNoDev "TS-GGGGGGGGGGGGGGGG" jnull 100 sigC8)).1 =
      respB "success" true "Ключ активирован" 200 ∧
    (activate_license 100 [licC8]
        (careqNoDev "TS-GGGGGGGGGGGGGGGG" jnull 100 sigC8)).2.find?
        (fun r => sqlEqKey r.key (some (jstr "TS-GGGGGGGGGGGGGGGG"))) =
      some { licC8 with device_info := some "null",
                        activated_at := some 100 } ∧
    ¬ allOrNothing { licC8 with device_info := some "null",
                                activated_at := some 100 } := by
  rw [activate_license_auth 100 [licC8]
    (careqNoDev "TS-GGGGGGGGGGGGGGGG" jnull 100 sigC8) 100 rfl rfl
    (by decide) (verify_signature_make _
      [("key", jstr "TS-GGGGGGGGGGGGGGGG"), ("device_info", jnull)] rfl),
    careqNoDev_body]
  rw [activateCore_success_nodev 100 [licC8] "TS-GGGGGGGGGGGGGGGG" jnull 100
    licC8 (by decide) rfl (by decide) (by decide) rfl]
  refine ⟨rfl, by decide, by simp [allOrNothing, licC8]⟩

/-- Witness for the amended C8 at a concrete input. -/
theorem C8_witness :
    (∀ r ∈ (check_license 7 [licC7]
      (creq "TS-CCCCCCCCCCCCCCCC" (jstr "D1") 7 "x")).2, allOrNothing r) ∧
    ((∃ s, jget (jremove (creq "TS-CCCCCCCCCCCCCCCC" (jstr "D1") 7 "x")
        "signature") "device_id" = some (jstr s)) →
      ∀ r ∈ (activate_license 7 [licC7]
        (creq "TS-CCCCCCCCCCCCCCCC" (jstr "D1") 7 "x")).2, allOrNothing r) ∧
    (∀ r ∈ (deactivate_license 7 [licC7]
      (creq "TS-CCCCCCCCCCCCCCCC" (jstr "D1") 7 "x")).2, allOrNothing r) ∧
    (∀ r ∈ (heartbeat 7 [licC7]
      (creq "TS-CCCCCCCCCCCCCCCC" (jstr "D1") 7 "x")).2, allOrNothing r) ∧
    (∀ r ∈ (api_generate 7 (some 30) "TS-NEW" [licC7]).2, allOrNothing r) ∧
    (∀ r ∈ (api_block "TS-CCCCCCCCCCCCCCCC" [licC7]).2, allOrNothing r) ∧
    (∀ r ∈ (api_unblock "TS-CCCCCCCCCCCCCCCC" [licC7]).2, allOrNothing r) ∧
    (∀ r ∈ (api_unbind "TS-CCCCCCCCCCCCCCCC" [licC7]).2, allOrNothing r) ∧
    (∀ r ∈ api_delete "TS-CCCCCCCCCCCCCCCC" [licC7], allOrNothing r) :=
  C8_all_or_nothing_preserved 7 (some 30) "TS-NEW" "TS-CCCCCCCCCCCCCCCC"
    [licC7] (creq "TS-CCCCCCCCCCCCCCCC" (jstr "D1") 7 "x")
    (by intro r hr
        rcases List.mem_singleton.mp hr with rfl
        exact Or.inl ⟨by decide, by decide, by decide⟩)

/-! ## Claim C9 -/

/-- The success path of `activateCore` in read/guard/write form: when the
guard evaluated on the row *as read* passes, the response is success and the
table change is the unconditional `activateApply` write (`UPDATE ... WHERE
key = %s`, with no condition on `device_id`). -/
theorem activateCore_guard_write (now : Int) (db : List License) (k : String)
    (dev dinfo : JVal) (ts : Int) (lic : License)
    (hk : k ≠ "")
    (hfound : db.find? (fun r => sqlEqKey r.key (some (jstr k))) = some lic)
    (hguard : activateGuardOk now lic (some dev) = true) :
    activateCore now db [("key", jstr k), ("device_id", dev),
        ("device_info", dinfo), ("timestamp", jint ts)] =
      (respB "success" true "Ключ активирован" 200,
       activateApply now (some (jstr k)) (some dev) (some dinfo) db) := by
  simp only [activateGuardOk, Bool.and_eq_true, Bool.not_eq_true'] at hguard
  obtain ⟨⟨h1, h2⟩, h3⟩ := hguard
  exact activateCore_success now db k dev dinfo ts lic hk hfound
    (of_decide_eq_false h1) h2 h3

/-- A concrete unbound active license targeted by two concurrent activates. -/
def licC9 : License :=
  { key := "TS-HHHHHHHHHHHHHHHH", created_at := 0, expires_at := none,
    device_id := none, device_info := none, activated_at := none,
    status := "active", last_check := none, heartbeat_last := none }

/-- The signature of device `D1`'s activate request. -/
def sigC9a : String :=
  make_signature [("key", jstr "TS-HHHHHHHHHHHHHHHH"),
    ("device_id", jstr "D1"), ("device_info", jnull)]

/-- The signature of device `D2`'s activate request. -/
def sigC9b : String :=
  make_signature [("key", jstr "TS-HHHHHHHHHHHHHHHH"),
    ("device_id", jstr "D2"), ("device_info", jnull)]

/-- **C9** (code_bug): the activate handler is a read-then-write in two
steps — `SELECT`, a guard on the row read, then `UPDATE licenses SET
device_id = ... WHERE key = %s` with no condition on `device_id`.  Under the
interleaving read₁, read₂, write₁, write₂ of two activates from devices `D1`
and `D2` against the same unbound license, both reads see the unbound row,
both guards pass, both callers are answered `success:true`, and `D2`'s
unconditional write silently overwrites `D1`'s freshly written binding —
contradicting the claimed (and spec-required) "exactly one succeeds, the
other observes a device-mismatch rejection, no binding is silently
overwritten". -/
theorem C9_concurrent_activate_lost_update :
    [licC9].find?
      (fun r => sqlEqKey r.key (some (jstr "TS-HHHHHHHHHHHHHHHH"))) =
      some licC9 ∧
    activateGuardOk 100 licC9 (some (jstr "D1")) = true ∧
    activateGuardOk 100 licC9 (some (jstr "D2")) = true ∧
    (activate_license 100 [licC9]
        (careq "TS-HHHHHHHHHHHHHHHH" (jstr "D1") jnull 100 sigC9a)).1 =
      respB "success" true "Ключ активирован" 200 ∧
    (activate_license 100 [licC9]
        (careq "TS-HHHHHHHHHHHHHHHH" (jstr "D2") jnull 100 sigC9b)).1 =
      respB "success" true "Ключ активирован" 200 ∧
    ((activateApply 100 (some (jstr "TS-HHHHHHHHHHHHHHHH"))
        (some (jstr "D2")) (some jnull)
        (activateApply 100 (some (jstr "TS-HHHHHHHHHHHHHHHH"))
          (some (jstr "D1")) (some jnull) [licC9])).find?
        (fun r => sqlEqKey r.key
          (some (jstr "TS-HHHHHHHHHHHHHHHH")))).map License.device_id =
      some (some "D2") := by
  have e1 : activate_license 100 [licC9]
      (careq "TS-HHHHHHHHHHHHHHHH" (jstr "D1") jnull 100 sigC9a) =
      (respB "success" true "Ключ активирован" 200,
       activateApply 100 (some (jstr "TS-HHHHHHHHHHHHHHHH"))
         (some (jstr "D1")) (some jnull) [licC9]) := by
    rw [activate_license_auth 100 [licC9]
      (careq "TS-HHHHHHHHHHHHHHHH" (jstr "D1") jnull 100 sigC9a) 100 rfl rfl
      (by decide) (verify_signature_make _
        [("key", jstr "TS-HHHHHHHHHHHHHHHH"), ("device_id", jstr "D1"),
         ("device_info", jnull)] rfl), careq_body]
    exact activateCore_guard_write 100 [licC9] "TS-HHHHHHHHHHHHHHHH"
      (jstr "D1") jnull 100 licC9 (by decide) rfl (by decide)
  have e2 : activate_license 100 [licC9]
      (careq "TS-HHHHHHHHHHHHHHHH" (jstr "D2") jnull 100 sigC9b) =
      (respB "success" true "Ключ активирован" 200,
       activateApply 100 (some (jstr "TS-HHHHHHHHHHHHHHHH"))
         (some (jstr "D2")) (some jnull) [licC9]) := by
    rw [activate_license_auth 100 [licC9]
      (careq "TS-HHHHHHHHHHHHHHHH" (jstr "D2") jnull 100 sigC9b) 100 rfl rfl
      (by decide) (verify_signature_make _
        [("key", jstr "TS-HHHHHHHHHHHHHHHH"), ("device_id", jstr "D2"),
         ("device_info", jnull)] rfl), careq_body]
    exact activateCore_guard_write 100 [licC9] "TS-HHHHHHHHHHHHHHHH"
      (jstr "D2") jnull 100 licC9 (by decide) rfl (by decide)
  rw [e1, e2]
  refine ⟨rfl, by decide, by decide, rfl, rfl, by decide⟩

/-! ## Claim C2

The first block builds injectivity of the JSON string escaping, via a decoder
for one escaped unit (`decodeOne`) and its roundtrip with `escChar`. -/

/-- Value of one hex digit character. -/
def hexVal (c : Char) : Nat :=
  if 97 ≤ c.toNat then c.toNat - 87
  else if 65 ≤ c.toNat then c.toNat - 55
  else c.toNat - 48

/-- Value of four hex digit characters. -/
def hexQuad (a b c d : Char) : Nat :=
  hexVal a * 4096 + hexVal b * 256 + hexVal c * 16 + hexVal d

/-- Decode the leading escaped unit of an escaped stream: a `\uXXXX` escape
(possibly a surrogate pair), a two-character backslash escape, or a plain
character. -/
def decodeOne : List Char → Option (Char × List Char)
  | '\\' :: 'u' :: a :: b :: c :: d :: rest =>
    let n := hexQuad a b c d
    if 55296 ≤ n ∧ n < 56320 then
      match rest with
      | '\\' :: 'u' :: e :: f :: g :: h :: rest2 =>
        some (Char.ofNat (65536 + (n - 55296) * 1024 +
          (hexQuad e f g h - 56320)), rest2)
      | _ => none
    else some (Char.ofNat n, rest)
  | '\\' :: 'b' :: rest => some (Char.ofNat 8, rest)
  | '\\' :: 't' :: rest => some (Char.ofNat 9, rest)
  | '\\' :: 'n' :: rest => some (Char.ofNat 10, rest)
  | '\\' :: 'f' :: rest => some (Char.ofNat 12, rest)
  | '\\' :: 'r' :: rest => some (Char.ofNat 13, rest)
  | '\\' :: c :: rest => some (c, rest)
  | c :: rest => some (c, rest)
  | [] => none

/-- Hex digits decode back to their value. -/
theorem hexVal_hexDig : ∀ d : Nat, d < 16 → hexVal (hexDig d) = d := by decide

/-- Four-digit hex rendering decodes back to the value. -/
theorem hexQuad_round (n : Nat) (h : n < 65536) :
    hexQuad (hexDig (n / 4096 % 16)) (hexDig (n / 256 % 16))
      (hexDig (n / 16 % 16)) (hexDig (n % 16)) = n := by
  unfold hexQuad
  rw [hexVal_hexDig _ (by omega), hexVal_hexDig _ (by omega),
    hexVal_hexDig _ (by omega), hexVal_hexDig _ (by omega)]
  omega

/-- The code point of a character is a Unicode scalar value. -/
theorem char_valid_nat (c : Char) :
    c.toNat < 55296 ∨ (57343 < c.toNat ∧ c.toNat < 1114112) := c.valid

/-- A plain character (not a backslash) decodes to itself. -/
theorem decodeOne_plain (c : Char) (rest : List Char) (hc : c ≠ '\\') :
    decodeOne (c :: rest) = some (c, rest) := by
  unfold decodeOne
  split <;> simp_all

/-- Decoding inverts escaping, one character at a time. -/
theorem decodeOne_escChar (ch : Char) (t : List Char) :
    decodeOne (escChar ch ++ t) = some (ch, t) := by
  have hofn : Char.ofNat ch.toNat = ch := Char.ofNat_toNat ch
  by_cases h34 : ch.toNat = 34
  · have hch : ch = '"' := by
      rw [← hofn, h34]
    subst hch
    rfl
  by_cases h92 : ch.toNat = 92
  · have hch : ch = '\\' := by
      rw [← hofn, h92]
    subst hch
    rfl
  by_cases h8 : ch.toNat = 8
  · have hch : ch = Char.ofNat 8 := by rw [← hofn, h8]
    subst hch
    rfl
  by_cases h9 : ch.toNat = 9
  · have hch : ch = Char.ofNat 9 := by rw [← hofn, h9]
    subst hch
    rfl
  by_cases h10 : ch.toNat = 10
  · have hch : ch = Char.ofNat 10 := by rw [← hofn, h10]
    subst hch
    rfl
  by_cases h12 : ch.toNat = 12
  · have hch : ch = Char.ofNat 12 := by rw [← hofn, h12]
    subst hch
    rfl
  by_cases h13 : ch.toNat = 13
  · have hch : ch = Char.ofNat 13 := by rw [← hofn, h13]
    subst hch
    rfl
  have hval := char_valid_nat ch
  by_cases hctl : ch.toNat < 32
  · have hesc : escChar ch = uEsc ch.toNat := by
      unfold escChar
      simp [h34, h92, h8, h9, h10, h12, h13, hctl]
    rw [hesc]
    unfold uEsc
    show decodeOne ('\\' :: 'u' :: _ :: _ :: _ :: _ :: t) = _
    simp only [decodeOne]
    rw [hexQuad_round _ (by omega)]
    rw [if_neg (by omega)]
    rw [hofn]
  by_cases hascii : ch.toNat < 127
  · have hesc : escChar ch = [ch] := by
      unfold escChar
      simp [h34, h92, h8, h9, h10, h12, h13, hctl, hascii]
    rw [hesc]
    exact decodeOne_plain ch t
      (fun h => h92 (by rw [h]; rfl))
  by_cases hbmp : ch.toNat < 65536
  · have hesc : escChar ch = uEsc ch.toNat := by
      unfold escChar
      simp [h34, h92, h8, h9, h10, h12, h13, hctl, hascii, hbmp]
    rw [hesc]
    unfold uEsc
    show decodeOne ('\\' :: 'u' :: _ :: _ :: _ :: _ :: t) = _
    simp only [decodeOne]
    rw [hexQuad_round _ (by omega)]
    rw [if_neg (by omega)]
    rw [hofn]
  · have hesc : escChar ch = uEsc (55296 + (ch.toNat - 65536) / 1024) ++
        uEsc (56320 + (ch.toNat - 65536) % 1024) := by
      unfold escChar
      simp [h34, h92, h8, h9, h10, h12, h13, hctl, hascii, hbmp]
    rw [hesc]
    have hhi : (ch.toNat - 65536) / 1024 < 1024 := by omega
    have hlo : (ch.toNat - 65536) % 1024 < 1024 := by omega
    unfold uEsc
    show decodeOne ('\\' :: 'u' :: _ :: _ :: _ :: _ ::
      ('\\' :: 'u' :: _ :: _ :: _ :: _ :: t)) = _
    simp only [decodeOne]
    rw [hexQuad_round _ (by omega)]
    rw [if_pos (by omega)]
    rw [hexQuad_round _ (by omega)]
    have harith : 65536 + (55296 + (ch.toNat - 65536) / 1024 - 55296) * 1024 +
        (56320 + (ch.toNat - 65536) % 1024 - 56320) = ch.toNat := by omega
    rw [harith, hofn]

/-- Escaping never produces the empty list. -/
theorem escChar_ne_nil (c : Char) : escChar c ≠ [] := by
  intro h
  have h2 := decodeOne_escChar c []
  rw [h] at h2
  exact Option.noConfusion h2

/-- The escaping of a character stream is injective. -/
theorem escapeList_inj : ∀ {s s' : List Char},
    escapeList s = escapeList s' → s = s' := by
  intro s
  induction s with
  | nil =>
    intro s' h
    cases s' with
    | nil => rfl
    | cons c cs =>
      rw [show escapeList (c :: cs) = escChar c ++ escapeList cs from rfl] at h
      rcases List.append_eq_nil.mp h.symm with ⟨h1, _⟩
      exact absurd h1 (escChar_ne_nil c)
  | cons c cs ih =>
    intro s' h
    cases s' with
    | nil =>
      rw [show escapeList (c :: cs) = escChar c ++ escapeList cs from rfl] at h
      rcases List.append_eq_nil.mp h with ⟨h1, _⟩
      exact absurd h1 (escChar_ne_nil c)
    | cons c' cs' =>
      have h2 := congrArg decodeOne h
      rw [show escapeList (c :: cs) = escChar c ++ escapeList cs from rfl,
        show escapeList (c' :: cs') = escChar c' ++ escapeList cs' from rfl,
        decodeOne_escChar, decodeOne_escChar] at h2
      injection h2 with h3
      injection h3 with h4 h5
      rw [h4, ih h5]

/-- JSON string literals are injective in their content. -/
theorem dumpStr_inj {a b : String} (h : dumpStr a = dumpStr b) : a = b := by
  have hd := congrArg String.data h
  simp only [dumpStr, String.data_append, List.append_assoc, List.cons_append,
    List.nil_append] at hd
  injection hd with h1 h2
  exact String.ext (escapeList_inj (List.append_cancel_right h2))

/-- `joinComma` of a nonempty tail. -/
theorem joinComma_cons_ne (s : String) (rest : List String)
    (h : rest ≠ []) : joinComma (s :: rest) = s ++ ", " ++ joinComma rest := by
  cases rest with
  | nil => exact absurd rfl h
  | cons b bs => rfl

/-- Two `joinComma` images that agree and differ in exactly one position
force that position to agree. -/
theorem joinComma_mid_inj (A : List String) (B : List String) (x y : String)
    (h : joinComma (A ++ x :: B) = joinComma (A ++ y :: B)) : x = y := by
  induction A with
  | nil =>
    cases B with
    | nil => simpa [joinComma] using h
    | cons b bs =>
      simp only [List.nil_append] at h
      rw [joinComma_cons_ne x (b :: bs) (by simp),
        joinComma_cons_ne y (b :: bs) (by simp)] at h
      have hd := congrArg String.data h
      simp only [String.data_append, List.append_assoc] at hd
      exact String.ext (List.append_cancel_right hd)
  | cons a A' ih =>
    simp only [List.cons_append] at h
    rw [joinComma_cons_ne a (A' ++ x :: B) (by simp),
      joinComma_cons_ne a (A' ++ y :: B) (by simp)] at h
    have hd := congrArg String.data h
    simp only [String.data_append, List.append_assoc] at hd
    have hj := List.append_cancel_left hd
    have hj2 := List.append_cancel_left hj
    exact ih (String.ext hj2)

/-- Key-preserving maps commute with sorted insertion. -/
theorem insertKey_map (f : (String × JVal) → (String × JVal))
    (hf : ∀ kv, (f kv).1 = kv.1) (x : String × JVal) :
    ∀ l : List (String × JVal),
      insertKey (f x) (l.map f) = (insertKey x l).map f := by
  intro l
  induction l with
  | nil => rfl
  | cons y ys ih =>
    simp only [List.map_cons, insertKey, hf]
    by_cases hle : strLe x.1 y.1 = true
    · rw [if_pos hle, if_pos hle]
      rfl
    · rw [if_neg hle, if_neg hle]
      simp only [List.map_cons, ih]

/-- Key-preserving maps commute with the key sort. -/
theorem sortKeys_map (f : (String × JVal) → (String × JVal))
    (hf : ∀ kv, (f kv).1 = kv.1) :
    ∀ l : List (String × JVal), sortKeys (l.map f) = (sortKeys l).map f := by
  intro l
  induction l with
  | nil => rfl
  | cons x xs ih =>
    simp only [List.map_cons, sortKeys, ih, insertKey_map f hf]

/-- Sorted insertion is a permutation of consing. -/
theorem insertKey_perm (x : String × JVal) (l : List (String × JVal)) :
    (insertKey x l).Perm (x :: l) := by
  induction l with
  | nil => exact List.Perm.refl _
  | cons y ys ih =>
    unfold insertKey
    by_cases hle : strLe x.1 y.1 = true
    · rw [if_pos hle]
    · rw [if_neg hle]
      exact (ih.cons y).trans (List.Perm.swap x y ys)

/-- The key sort permutes its input. -/
theorem sortKeys_perm (l : List (String × JVal)) : (sortKeys l).Perm l := by
  induction l with
  | nil => exact List.Perm.refl _
  | cons x xs ih => exact (insertKey_perm x (sortKeys xs)).trans (ih.cons x)

/-- Overwriting a key and then removing it is the same as removing it. -/
theorem jremove_setField_same (data : List (String × JVal)) (k : String)
    (v : JVal) : jremove (setField data k v) k = jremove data k := by
  induction data with
  | nil => rfl
  | cons kv rest ih =>
    simp only [setField, List.map_cons, jremove, List.filter_cons] at ih ⊢
    by_cases hk : kv.1 = k
    · simp [hk, ih]
    · simp [hk, ih]

/-- Overwriting one key commutes with removing a different key. -/
theorem jremove_setField_other (data : List (String × JVal)) (k kr : String)
    (v : JVal) (h : kr ≠ k) :
    jremove (setField data kr v) k = setField (jremove data k) kr v := by
  induction data with
  | nil => rfl
  | cons kv rest ih =>
    simp only [setField, List.map_cons, jremove, List.filter_cons] at ih ⊢
    by_cases hk : kv.1 = kr
    · simp [hk, h, Ne.symm h, ih]
    · by_cases hk2 : kv.1 = k
      · simp [hk, hk2, Ne.symm h, ih]
      · simp [hk, hk2, ih]

/-- Overwriting a non-auth key commutes with stripping the auth fields. -/
theorem stripAuth_setField (data : List (String × JVal)) (k : String)
    (v : JVal) (h1 : k ≠ "signature") (h2 : k ≠ "timestamp")
    (h3 : k ≠ "nonce") :
    stripAuth (setField data k v) = setField (stripAuth data) k v := by
  unfold stripAuth
  rw [jremove_setField_other data "signature" k v h1,
    jremove_setField_other _ "timestamp" k v h2,
    jremove_setField_other _ "nonce" k v h3]

/-- Overwriting `timestamp` does not change the signed material. -/
theorem stripAuth_setField_timestamp (data : List (String × JVal)) (v : JVal) :
    stripAuth (setField data "timestamp" v) = stripAuth data := by
  unfold stripAuth
  rw [jremove_setField_other data "signature" "timestamp" v (by decide),
    jremove_setField_same]

/-- Overwriting `nonce` does not change the signed material. -/
theorem stripAuth_setField_nonce (data : List (String × JVal)) (v : JVal) :
    stripAuth (setField data "nonce" v) = stripAuth data := by
  unfold stripAuth
  rw [jremove_setField_other data "signature" "nonce" v (by decide),
    jremove_setField_other _ "timestamp" "nonce" v (by decide),
    jremove_setField_same]

/-- Overwriting `signature` does not change the signed material. -/
theorem stripAuth_setField_signature (data : List (String × JVal)) (v : JVal) :
    stripAuth (setField data "signature" v) = stripAuth data := by
  unfold stripAuth
  rw [jremove_setField_same]

/-- A non-auth entry survives the stripping. -/
theorem mem_stripAuth (data : List (String × JVal)) (kv : String × JVal)
    (h : kv ∈ data) (h1 : kv.1 ≠ "signature") (h2 : kv.1 ≠ "timestamp")
    (h3 : kv.1 ≠ "nonce") : kv ∈ stripAuth data := by
  unfold stripAuth jremove
  simp [List.mem_filter, h, h1, h2, h3]

/-- Stripping keeps the keys duplicate-free. -/
theorem stripAuth_keys_nodup (data : List (String × JVal))
    (h : (data.map Prod.fst).Nodup) :
    ((stripAuth data).map Prod.fst).Nodup := by
  apply List.Nodup.sublist _ h
  exact List.Sublist.map _
    ((List.filter_sublist _).trans
      ((List.filter_sublist _).trans (List.filter_sublist _)))

/-- Changing the (string) value stored at a non-auth key changes the signed
canonical serialization. -/
theorem canonicalString_setField_ne (data : List (String × JVal)) (k : String)
    (s s' : String)
    (hk1 : k ≠ "signature") (hk2 : k ≠ "timestamp") (hk3 : k ≠ "nonce")
    (hnd : (data.map Prod.fst).Nodup)
    (hmem : (k, jstr s) ∈ data) (hne : s ≠ s') :
    canonicalString (setField data k (jstr s')) ≠ canonicalString data := by
  intro hEq
  unfold canonicalString at hEq
  rw [stripAuth_setField data k (jstr s') hk1 hk2 hk3] at hEq
  have hmem' : (k, jstr s) ∈ stripAuth data :=
    mem_stripAuth data (k, jstr s) hmem hk1 hk2 hk3
  have hndl : ((stripAuth data).map Prod.fst).Nodup :=
    stripAuth_keys_nodup data hnd
  have hmemL : (k, jstr s) ∈ sortKeys (stripAuth data) :=
    ((sortKeys_perm (stripAuth data)).mem_iff).mpr hmem'
  rcases List.append_of_mem hmemL with ⟨A, B, hAB⟩
  have hndL : ((sortKeys (stripAuth data)).map Prod.fst).Nodup :=
    (((sortKeys_perm (stripAuth data)).map Prod.fst).symm).nodup hndl
  rw [hAB] at hndL
  simp only [List.map_append, List.map_cons] at hndL
  have hkA : k ∉ A.map Prod.fst := by
    rcases List.nodup_append.mp hndL with ⟨_, hn2, hdisj⟩
    intro hmemA
    exact hdisj hmemA (by simp)
  have hkB : k ∉ B.map Prod.fst := by
    rcases List.nodup_append.mp hndL with ⟨_, hn2, _⟩
    exact (List.nodup_cons.mp hn2).1
  have hsorted : sortKeys (setField (stripAuth data) k (jstr s')) =
      (sortKeys (stripAuth data)).map
        (fun kv => if kv.1 = k then (k, jstr s') else kv) := by
    exact sortKeys_map _
      (fun kv => by by_cases h : kv.1 = k <;> simp [h]) (stripAuth data)
  unfold dumpObjSorted at hEq
  rw [hsorted, hAB, List.map_append, List.map_cons] at hEq
  have hmapA : A.map (fun kv => if kv.1 = k then (k, jstr s') else kv) = A := by
    rw [List.map_congr_left (g := id) ?_, List.map_id]
    intro kv hkv
    have : kv.1 ≠ k := fun hh => hkA (hh ▸ List.mem_map_of_mem Prod.fst hkv)
    simp [this]
  have hmapB : B.map (fun kv => if kv.1 = k then (k, jstr s') else kv) = B := by
    rw [List.map_congr_left (g := id) ?_, List.map_id]
    intro kv hkv
    have : kv.1 ≠ k := fun hh => hkB (hh ▸ List.mem_map_of_mem Prod.fst hkv)
    simp [this]
  rw [hmapA, hmapB] at hEq
  simp only [if_pos rfl] at hEq
  rw [List.map_append, List.map_append, List.map_cons, List.map_cons] at hEq
  -- cancel the braces
  have hdata := congrArg String.data hEq
  simp only [String.data_append, List.append_assoc, List.cons_append,
    List.nil_append] at hdata
  injection hdata with hh ht
  have hjoin := String.ext (List.append_cancel_right ht)
  have hentry := joinComma_mid_inj _ _ _ _ hjoin
  -- cancel the key and separator inside the entry
  have hed := congrArg String.data hentry
  simp only [String.data_append, List.append_assoc] at hed
  have hed2 := List.append_cancel_left (List.append_cancel_left hed)
  exact hne (dumpStr_inj (String.ext hed2)).symm

/-- Counterexample to C2 as stated: changing the `timestamp` field — a field
other than `signature` — does *not* invalidate the signature, because
`verify_signature` pops `timestamp` (and `nonce`) before hashing. -/
theorem C2_counterexample :
    verify_signature
      (setField [("key", jstr "TS-A"), ("timestamp", jint 1)] "timestamp"
        (jint 2))
      (jstr (make_signature [("key", jstr "TS-A"), ("timestamp", jint 1)])) =
      true ∧
    setField [("key", jstr "TS-A"), ("timestamp", jint 1)] "timestamp"
        (jint 2) ≠ [("key", jstr "TS-A"), ("timestamp", jint 1)] := by
  constructor
  · exact verify_signature_make _ _ rfl
  · decide

/-- **C2** (corrected — counterexample `C2_counterexample`): signing then
verifying succeeds for every payload, but the signature covers only the
payload with `signature`, `timestamp` and `nonce` removed: overwriting
`timestamp` or `nonce` leaves verification succeeding, verification of any
candidate is exactly the comparison of the presented signature with the
double SHA-256 of the candidate's canonical signed material, and changing any
single string-valued field other than those three changes that canonical
material (so the old signature is only accepted in the event of a double-
SHA-256 collision). -/
theorem C2_sign_verify_roundtrip_and_sensitivity :
    (∀ data : List (String × JVal),
      verify_signature data (jstr (make_signature data)) = true) ∧
    (∀ (data : List (String × JVal)) (v : JVal),
      verify_signature (setField data "timestamp" v)
        (jstr (make_signature data)) = true) ∧
    (∀ (data : List (String × JVal)) (v : JVal),
      verify_signature (setField data "nonce" v)
        (jstr (make_signature data)) = true) ∧
    (∀ (data : List (String × JVal)) (sig : JVal),
      verify_signature data sig = true ↔
        jstr (sha256hex (sha256hex (canonicalString data ++ SECRET_KEY) ++
          SECRET_KEY)) = sig) ∧
    (∀ (data : List (String × JVal)) (k : String) (s s' : String),
      k ≠ "signature" → k ≠ "timestamp" → k ≠ "nonce" →
      (data.map Prod.fst).Nodup → (k, jstr s) ∈ data → s ≠ s' →
      canonicalString (setField data k (jstr s')) ≠ canonicalString data) := by
  refine ⟨fun data => verify_signature_make data data rfl,
    fun data v => verify_signature_make _ data
      (stripAuth_setField_timestamp data v),
    fun data v => verify_signature_make _ data
      (stripAuth_setField_nonce data v),
    fun data sig => ?_,
    fun data k s s' h1 h2 h3 hnd hmem hne =>
      canonicalString_setField_ne data k s s' h1 h2 h3 hnd hmem hne⟩
  unfold verify_signature
  exact decide_eq_true_iff

/-- Witness for the amended C2 at concrete inputs. -/
theorem C2_witness :
    verify_signature [("device_id", jstr "a"), ("key", jstr "TS-A")]
      (jstr (make_signature [("device_id", jstr "a"), ("key", jstr "TS-A")])) =
      true ∧
    canonicalString (setField [("device_id", jstr "a"), ("key", jstr "TS-A")]
        "device_id" (jstr "b")) ≠
      canonicalString [("device_id", jstr "a"), ("key", jstr "TS-A")] :=
  ⟨C2_sign_verify_roundtrip_and_sensitivity.1
      [("device_id", jstr "a"), ("key", jstr "TS-A")],
   C2_sign_verify_roundtrip_and_sensitivity.2.2.2.2
      [("device_id", jstr "a"), ("key", jstr "TS-A")] "device_id" "a" "b"
      (by decide) (by decide) (by decide) (by decide) (by decide) (by decide)⟩
